import Mathlib

set_option maxRecDepth 8192

/-!
Shallow embedding of the ETL pipeline of `CaregiverRepository.ts` and
`CarelogsRepository.ts` (caregiver / carelog Extract-Transform-Load), together
with theorems settling the specification claims about it.

Modelling conventions:
* JavaScript strings are Lean `String`s; a field of a raw record is
  `Option String` (`none` = absent / `undefined` / `null`).
* JavaScript truthiness on strings (`!v`): falsy iff absent or `""`.
* JavaScript truthiness on numbers: falsy iff `0` (or `null`).
* `Date` values are epoch milliseconds (`Int`); `new Date(s)` parsing is
  abstracted by an explicit oracle `pd : String → Option Int` (`none` = the
  `Invalid Date` case), since the pipeline never inspects dates beyond
  comparison.  `Date` objects are always truthy, hence an `Option Int` date is
  falsy iff `none`.
* Database writes (`insertSingleCaregiver` / `insertSingleCarelog` under a
  transaction, including the 30s/10s `Promise.race` timeout) are abstracted by
  an insert oracle `ins : record → Except String Unit`; an `error` is the
  per-record failure message the `catch` block receives.
* Thrown exceptions are `Except.error`; wall-clock timestamps and the pacing
  delay between batches are not modelled (they carry no data the claims use).
-/

/-- JS string truthiness: `!v` is true iff the value is absent or `""`. -/
def jsTruthy (v : Option String) : Bool :=
  match v with
  | none => false
  | some s => s ≠ ""

/-- JS `a || b` on string-valued fields (`""` and absent are falsy). -/
def jsOr (a b : Option String) : Option String :=
  if jsTruthy a then a else b

/-- JS `a || d` where `a` is a nullable string and `d` a string default. -/
def jsOrD (a : Option String) (d : String) : String :=
  match a with
  | none => d
  | some s => if s = "" then d else s

/-- JS numeric truthiness on a nullable integer: falsy iff `null` or `0`. -/
def jsTruthyInt (v : Option Int) : Bool :=
  match v with
  | none => false
  | some n => n ≠ 0

/-- Digit run to a natural number. -/
def digitsVal (cs : List Char) : Nat :=
  cs.foldl (fun a c => a * 10 + (c.toNat - 48)) 0

/-- Model of JS `parseInt(String(v), 10)`: skip leading whitespace, optional
sign, then a maximal run of decimal digits (trailing garbage ignored);
`NaN` (here `none`) when no digit is found. -/
def jsParseInt (s : String) : Option Int :=
  let cs := s.data.dropWhile Char.isWhitespace
  let signAndRest : Int × List Char :=
    match cs with
    | '-' :: r => (-1, r)
    | '+' :: r => (1, r)
    | r => (1, r)
  let ds := signAndRest.2.takeWhile Char.isDigit
  if ds.isEmpty then none else some (signAndRest.1 * (digitsVal ds : Int))

/-- Model of JS `parseFloat(String(v))` restricted to plain decimal literals
(optional sign, integer part, optional fractional part); exponent notation is
not modelled — no claim depends on it. -/
def jsParseFloat (s : String) : Option ℚ :=
  let cs := s.data.dropWhile Char.isWhitespace
  let signAndRest : ℚ × List Char :=
    match cs with
    | '-' :: r => (-1, r)
    | '+' :: r => (1, r)
    | r => (1, r)
  let intPart := signAndRest.2.takeWhile Char.isDigit
  let rest := signAndRest.2.dropWhile Char.isDigit
  let fracPart :=
    match rest with
    | '.' :: r => r.takeWhile Char.isDigit
    | _ => []
  if intPart.isEmpty ∧ fracPart.isEmpty then none
  else
    some (signAndRest.1 *
      ((digitsVal intPart : ℚ) + (digitsVal fracPart : ℚ) / ((10 : ℚ) ^ fracPart.length)))

/-- Does `pat` occur inside `s`?  Used to model JS `String.includes`. -/
def containsSubstr (s pat : String) : Bool :=
  (List.range (s.data.length + 1)).any (fun i => pat.data.isPrefixOf (s.data.drop i))

/-- JS `String.trim` (whitespace at both ends removed), implemented on the
character list so it computes by kernel reduction. -/
def jsTrim (s : String) : String :=
  String.mk (((s.data.dropWhile Char.isWhitespace).reverse.dropWhile Char.isWhitespace).reverse)

/-- JS `String.toLowerCase` restricted to ASCII (all enum values compared by
the pipeline are ASCII). -/
def jsToLower (s : String) : String :=
  String.mk (s.data.map Char.toLower)

/-- `String.split(sep)` on a character list (JS semantics: `""` splits to
`[""]`, separators at the ends produce empty parts). -/
def splitAtSep (sep : Char) : List Char → List (List Char)
  | [] => [[]]
  | c :: rest =>
    let r := splitAtSep sep rest
    if c = sep then [] :: r
    else
      match r with
      | [] => [[c]]
      | h :: t => (c :: h) :: t

namespace CaregiverRepository

/-- `cleanString(value)` (non-required): `null`/`undefined`/`''` give `null`,
otherwise the trimmed string (which may be `""`, since the emptiness test
happens before trimming in the source). -/
def cleanString (v : Option String) : Option String :=
  match v with
  | none => none
  | some s => if s = "" then none else some (jsTrim s)

/-- `cleanString(value, true)`: throws `Required string field is empty` on a
falsy input, otherwise returns the trimmed string. -/
def cleanStringReq (v : Option String) : Except String String :=
  match v with
  | none => .error "Required string field is empty"
  | some s => if s = "" then .error "Required string field is empty" else .ok (jsTrim s)

/-- The regex `/^[^\s@]+@[^\s@]+\.[^\s@]+$/`: the string is `A@B.C` with `A`,
`B`, `C` non-empty and free of whitespace and `@` (`B`/`C` may contain dots:
matched iff the part after the unique `@` contains a dot that is neither its
first nor its last character, when no other dot qualifies). -/
def emailRegexTest (s : String) : Bool :=
  match splitAtSep '@' s.data with
  | [a, d] =>
    a ≠ [] ∧ a.all (fun c => ¬ c.isWhitespace) ∧ d.all (fun c => ¬ c.isWhitespace) ∧
      (List.range d.length).any
        (fun i => d.getD i ' ' = '.' ∧ 0 < i ∧ i + 1 < d.length)
  | _ => false

/-- `cleanEmail`: falsy input → `null`; otherwise trim + lowercase, and return
the cleaned address when it matches the email regex, else `null` (with only a
console warning — no exception). -/
def cleanEmail (email : Option String) : Option String :=
  if ¬ jsTruthy email then none
  else
    let cleaned := jsToLower (jsTrim (email.getD ""))
    if emailRegexTest cleaned then some cleaned else none

/-- `cleanPhoneNumber`: strip every character that is neither a digit nor `+`;
empty result → `null`. -/
def cleanPhoneNumber (phone : Option String) : Option String :=
  if ¬ jsTruthy phone then none
  else
    let cleaned := String.mk ((phone.getD "").data.filter (fun c => c.isDigit ∨ c = '+'))
    if cleaned = "" then none else some cleaned

/-- `parseInteger`: falsy-or-empty input → `null`, else `parseInt(..., 10)`. -/
def parseInteger (v : Option String) : Option Int :=
  match v with
  | none => none
  | some s => if s = "" then none else jsParseInt s

/-- `parseDecimal` via `parseFloat`. -/
def parseDecimal (v : Option String) : Option ℚ :=
  match v with
  | none => none
  | some s => if s = "" then none else jsParseFloat s

/-- `parseDate`: falsy input → `null`, otherwise `new Date(value)` through the
date-parse oracle `pd`. -/
def parseDate (pd : String → Option Int) (v : Option String) : Option Int :=
  match v with
  | none => none
  | some s => if s = "" then none else pd s

/-- `parseBoolean` on a string-valued field: member of
`{"true","1","yes"}` after lowercase-trim. -/
def parseBoolean (v : Option String) : Bool :=
  match v with
  | none => false
  | some s =>
    let lower := jsTrim (jsToLower s)
    lower = "true" ∨ lower = "1" ∨ lower = "yes"

/-- `normalizeGender`: falsy input → `null`; otherwise lookup after
lowercase-trim, unrecognized → `'other'`. -/
def normalizeGender (gender : Option String) : Option String :=
  if ¬ jsTruthy gender then none
  else
    let n := jsTrim (jsToLower (gender.getD ""))
    some (if n = "m" ∨ n = "male" then "male"
      else if n = "f" ∨ n = "female" then "female"
      else if n = "prefer_not_to_say" then "prefer_not_to_say"
      else if n = "other" then "other"
      else "other")

/-- `normalizeStatus` (the `sstatus` enum): falsy → `'active'`; recognized
values pass through, unrecognized → `'active'`. -/
def normalizeStatus (status : Option String) : String :=
  if ¬ jsTruthy status then "active"
  else
    let n := jsTrim (jsToLower (status.getD ""))
    if n = "active" ∨ n = "inactive" ∨ n = "pending" ∨ n = "suspended" ∨ n = "terminated"
    then n else "active"

/-- `normalizeCaregiverStatus`: falsy → `'active'`; `inactive`/`deactivated`
→ `'deactivated'`; anything else → `'active'`. -/
def normalizeCaregiverStatus (status : Option String) : String :=
  if ¬ jsTruthy status then "active"
  else
    let n := jsTrim (jsToLower (status.getD ""))
    if n = "deactivated" ∨ n = "inactive" then "deactivated"
    else "active"

/-- One raw caregiver record (CSV / API / DB row); every source field is an
optional string. -/
structure RawCaregiver where
  franchisor_id : Option String := none
  agency_id : Option String := none
  locations_id : Option String := none
  location_id : Option String := none
  subdomain : Option String := none
  first_name : Option String := none
  last_name : Option String := none
  email : Option String := none
  phone_number : Option String := none
  gender : Option String := none
  birthday_date : Option String := none
  onboarding_date : Option String := none
  certification_level : Option String := none
  hourly_rate : Option String := none
  applicant : Option String := none
  applicant_status : Option String := none
  status : Option String := none
  sstatus : Option String := none
  external_id : Option String := none
  external_system_id : Option String := none
  system_name : Option String := none
  deriving DecidableEq

/-- The transformed caregiver record produced by `transformCaregiverData`
(`extracted_at` timestamp omitted — wall-clock is not modelled). -/
structure CaregiverRec where
  franchisor_id : Option Int
  agency_id : Option Int
  location_id : Option Int
  subdomain : Option String
  first_name : String
  last_name : String
  email : Option String
  phone_number : Option String
  gender : Option String
  birthday_date : Option Int
  onboarding_date : Option Int
  certification_level : Option String
  hourly_rate : Option ℚ
  applicant : Bool
  applicant_status : Option String
  sstatus : String
  external_system_id : Option String
  system_name : String
  status : String
  source_row : Nat
  deriving DecidableEq

/-- `validateRequiredFields`: throws listing every falsy required field
(`first_name`, `last_name`) of the transformed record. -/
def validateRequiredFields (first last : String) (rowNumber : Nat) : Except String Unit :=
  let missingFields := (if first = "" then ["first_name"] else []) ++
    (if last = "" then ["last_name"] else [])
  if missingFields.isEmpty then .ok ()
  else
    let fields := String.intercalate ", " missingFields
    .error s!"Missing required fields in row {rowNumber}: {fields}"

/-- The body of one iteration of `transformCaregiverData`'s `map` (index is
0-based as in the source; `source_row = index + 1`). -/
def transformOneCaregiver (pd : String → Option Int) (record : RawCaregiver) (index : Nat) :
    Except String CaregiverRec := do
  let first ← cleanStringReq record.first_name
  let last ← cleanStringReq record.last_name
  let transformed : CaregiverRec :=
    { franchisor_id := parseInteger record.franchisor_id
      agency_id := parseInteger record.agency_id
      location_id := parseInteger (jsOr record.locations_id record.location_id)
      subdomain := cleanString record.subdomain
      first_name := first
      last_name := last
      email := cleanEmail record.email
      phone_number := cleanPhoneNumber record.phone_number
      gender := normalizeGender record.gender
      birthday_date := parseDate pd record.birthday_date
      onboarding_date := parseDate pd record.onboarding_date
      certification_level := cleanString record.certification_level
      hourly_rate := parseDecimal record.hourly_rate
      applicant := parseBoolean record.applicant
      applicant_status := cleanString record.applicant_status
      sstatus := normalizeStatus (jsOr record.status record.sstatus)
      external_system_id := cleanString (jsOr record.external_id record.external_system_id)
      system_name := jsOrD (cleanString record.system_name) "legacy_csv"
      status := normalizeCaregiverStatus record.status
      source_row := index + 1 }
  validateRequiredFields transformed.first_name transformed.last_name (index + 1)
  return transformed

/-- `transformCaregiverData`: a `map` whose per-record `catch` re-throws, so the
first failing record aborts the whole transform with
`Transformation failed at record N: …`. -/
def transformCaregiverData (pd : String → Option Int) (rawData : List RawCaregiver) :
    Except String (List CaregiverRec) :=
  go 0 rawData
where
  /-- Remaining records starting at 0-based index `i`. -/
  go (i : Nat) : List RawCaregiver → Except String (List CaregiverRec)
    | [] => .ok []
    | r :: rs => do
      let n := i + 1
      let t ← (transformOneCaregiver pd r i).mapError
        (fun m => s!"Transformation failed at record {n}: {m}")
      let ts ← go (i + 1) rs
      return t :: ts

/-- A raw caregiver row is fatal for `transformCaregiverData` iff a required
name field is falsy before cleaning or trims to the empty string. -/
def rowFatal (r : RawCaregiver) : Bool :=
  ¬ jsTruthy r.first_name ∨ ¬ jsTruthy r.last_name ∨
    jsTrim (r.first_name.getD "") = "" ∨ jsTrim (r.last_name.getD "") = ""

theorem transformOneCaregiver_isOk (pd : String → Option Int) (r : RawCaregiver) (i : Nat) :
    (transformOneCaregiver pd r i).isOk = !rowFatal r := by
  unfold transformOneCaregiver rowFatal
  cases hf : r.first_name with
  | none => simp [cleanStringReq, jsTruthy, Except.isOk, Except.toBool, Bind.bind, Except.bind]
  | some sf =>
    cases hl : r.last_name with
    | none =>
      by_cases hsf : sf = "" <;>
        simp [cleanStringReq, jsTruthy, hsf, Except.isOk, Except.toBool, Bind.bind, Except.bind]
    | some sl =>
      by_cases hsf : sf = ""
      · simp [cleanStringReq, jsTruthy, hsf, Except.isOk, Except.toBool, Bind.bind, Except.bind]
      · by_cases hsl : sl = ""
        · simp [cleanStringReq, jsTruthy, hsf, hsl, Except.isOk, Except.toBool,
            Bind.bind, Except.bind]
        · by_cases htf : jsTrim sf = "" <;> by_cases htl : jsTrim sl = "" <;>
            simp [cleanStringReq, jsTruthy, hsf, hsl, htf, htl, validateRequiredFields,
              Except.isOk, Except.toBool, Bind.bind, Except.bind, pure, Except.pure]

end CaregiverRepository

namespace CarelogsRepository

/-- Carelog `cleanString`: `null`/`undefined` → `null`, else trim, and an empty
trimmed string → `null` (unlike the caregiver variant, trimming happens before
the emptiness test). -/
def cleanString (v : Option String) : Option String :=
  match v with
  | none => none
  | some s => if jsTrim s = "" then none else some (jsTrim s)

/-- Carelog `parseInteger`: `parseInt(String(value).trim())`. -/
def parseInteger (v : Option String) : Option Int :=
  match v with
  | none => none
  | some s => if s = "" then none else jsParseInt (jsTrim s)

/-- Carelog `parseDate`: falsy or whitespace-only input → `null`; otherwise
`new Date(trimmed)` through the oracle `pd`. -/
def parseDate (pd : String → Option Int) (v : Option String) : Option Int :=
  match v with
  | none => none
  | some s => if s = "" ∨ jsTrim s = "" then none else pd (jsTrim s)

/-- Carelog `parseBoolean`: lowercase-trim membership in `{"true","1","yes"}`. -/
def parseBoolean (v : Option String) : Bool :=
  match v with
  | none => false
  | some s =>
    let str := jsTrim (jsToLower s)
    str = "true" ∨ str = "1" ∨ str = "yes"

/-- `normalizeCarelogStatus`: falsy → `'scheduled'`; one of the six valid
statuses passes through; anything else → `'scheduled'`. -/
def normalizeCarelogStatus (status : Option String) : String :=
  if ¬ jsTruthy status then "scheduled"
  else
    let n := jsTrim (jsToLower (status.getD ""))
    if n = "scheduled" ∨ n = "in_progress" ∨ n = "completed" ∨ n = "cancelled" ∨
        n = "no_show" ∨ n = "deleted"
    then n else "scheduled"

/-- One raw carelog row; `rowIdx` is the `_rowIndex` ordinal attached by the
extractors. -/
structure RawCarelog where
  rowIdx : Option Int := none
  id : Option String := none
  external_id : Option String := none
  franchisor_id : Option String := none
  agency_id : Option String := none
  caregiver_id : Option String := none
  parent_id : Option String := none
  start_datetime : Option String := none
  end_datetime : Option String := none
  clock_in_actual_datetime : Option String := none
  clock_out_actual_datetime : Option String := none
  clock_in_method : Option String := none
  clock_out_method : Option String := none
  status : Option String := none
  split : Option String := none
  documentation : Option String := none
  general_comment_char_count : Option String := none
  deriving DecidableEq

/-- The transformed carelog record (the `created_at`/`updated_at` audit
timestamps, set to the current time, are omitted — wall-clock is not
modelled). -/
structure Carelog where
  franchisor_id : Option Int
  agency_id : Option Int
  external_id : Option String
  caregiver_id : Option Int
  parent_id : Option Int
  start_datetime : Option Int
  end_datetime : Option Int
  clock_in_actual_datetime : Option Int
  clock_out_actual_datetime : Option Int
  clock_in_method : Option String
  clock_out_method : Option String
  status : String
  split : Bool
  documentation : String
  general_comment_char_count : Int
  deriving DecidableEq

/-- One `TransformOutcome` of `transformCarelogData` (`success` outcomes carry
`data`; failures carry `error`). -/
structure Transform where
  success : Bool
  data : Option Carelog := none
  error : Option String := none
  rowIndex : Int
  deriving DecidableEq

/-- `validateCarelogRecord`: the ordered list of business-rule error messages
(valid iff empty).  Numeric fields are falsy at `0`, date fields only at
`null`. -/
def validateCarelogRecord (carelog : Carelog) : List String :=
  (if ¬ jsTruthyInt carelog.caregiver_id then ["caregiver_id is required"] else []) ++
  (if carelog.start_datetime.isNone then ["start_datetime is required"] else []) ++
  (if carelog.end_datetime.isNone then ["end_datetime is required"] else []) ++
  (match carelog.start_datetime, carelog.end_datetime with
    | some s, some e => if s ≥ e then ["start_datetime must be before end_datetime"] else []
    | _, _ => []) ++
  (match carelog.clock_in_actual_datetime, carelog.clock_out_actual_datetime with
    | some ci, some co =>
      if ci ≥ co then ["clock_in_actual_datetime must be before clock_out_actual_datetime"]
      else []
    | _, _ => []) ++
  (if carelog.general_comment_char_count ≠ 0 ∧ carelog.general_comment_char_count < 0
    then ["general_comment_char_count cannot be negative"] else [])

/-- `row._rowIndex || i + 1` (a numeric `0` is falsy). -/
def rowIndexOf (r : RawCarelog) (i : Nat) : Int :=
  match r.rowIdx with
  | none => (i : Int) + 1
  | some n => if n = 0 then (i : Int) + 1 else n

/-- The `transformedData` object literal built for one raw carelog row. -/
def clRecordOf (pd : String → Option Int) (row : RawCarelog) : Carelog :=
  { franchisor_id := parseInteger row.franchisor_id
    agency_id := parseInteger row.agency_id
    external_id := cleanString (jsOr row.id row.external_id)
    caregiver_id := parseInteger row.caregiver_id
    parent_id := parseInteger row.parent_id
    start_datetime := parseDate pd row.start_datetime
    end_datetime := parseDate pd row.end_datetime
    clock_in_actual_datetime := parseDate pd row.clock_in_actual_datetime
    clock_out_actual_datetime := parseDate pd row.clock_out_actual_datetime
    clock_in_method := cleanString row.clock_in_method
    clock_out_method := cleanString row.clock_out_method
    status := normalizeCarelogStatus row.status
    split := parseBoolean row.split
    documentation := jsOrD (cleanString row.documentation) ""
    general_comment_char_count := (parseInteger row.general_comment_char_count).getD 0 }

/-- One iteration of `transformCarelogData`'s loop: required raw fields first,
then field transformation, then business-rule validation; any error becomes a
failure outcome for this row only. -/
def transformOneCarelog (pd : String → Option Int) (row : RawCarelog) (i : Nat) : Transform :=
  if ¬ (jsTruthy row.caregiver_id ∧ jsTruthy row.start_datetime ∧ jsTruthy row.end_datetime)
  then
    { success := false
      error := some "Missing required fields: caregiver_id, start_datetime, end_datetime"
      rowIndex := rowIndexOf row i }
  else if (validateCarelogRecord (clRecordOf pd row)).isEmpty then
    { success := true, data := some (clRecordOf pd row), rowIndex := rowIndexOf row i }
  else
    { success := false
      error := some (String.intercalate "; " (validateCarelogRecord (clRecordOf pd row)))
      rowIndex := rowIndexOf row i }

/-- `transformCarelogData`: one outcome per raw row, in order; per-row errors
are caught, never re-thrown. -/
def transformCarelogData (pd : String → Option Int) (rawData : List RawCarelog) :
    List Transform :=
  go 0 rawData
where
  /-- Remaining rows starting at 0-based index `i`. -/
  go (i : Nat) : List RawCarelog → List Transform
    | [] => []
    | row :: rest => transformOneCarelog pd row i :: go (i + 1) rest

theorem transformCarelogData_go_length (pd : String → Option Int) (i : Nat)
    (l : List RawCarelog) : (transformCarelogData.go pd i l).length = l.length := by
  induction l generalizing i with
  | nil => rfl
  | cons r rs ih => simp [transformCarelogData.go, ih]

theorem transformCarelogData_length (pd : String → Option Int) (l : List RawCarelog) :
    (transformCarelogData pd l).length = l.length :=
  transformCarelogData_go_length pd 0 l

end CarelogsRepository

namespace CaregiverRepository

/-- One entry of `loadCaregiverData`'s error list (the record snapshot is the
source row number carried by the record; timestamp and batch number are
presentation only). -/
structure CgLoadErr where
  row : Nat
  error : String
  deriving DecidableEq

/-- Result of `loadCaregiverData`. -/
structure CgLoadResult where
  totalProcessed : Nat
  successCount : Nat
  errorCount : Nat
  errors : List CgLoadErr
  deriving DecidableEq

/-- State of the caregiver load loop: successCount and the error list. -/
abbrev CgState := Nat × List CgLoadErr

/-- One record of the caregiver batch loop: insert via the oracle; on failure
record the error and, when the cumulative error count exceeds 50% of the
*total* input size (`errors.length > transformedData.length * 0.5`), abort the
whole load by throwing `Too many errors…` out of the transaction. -/
def cgStep (ins : CaregiverRec → Except String Unit) (total : Nat) (st : CgState)
    (r : CaregiverRec) : Except String CgState :=
  match ins r with
  | .ok _ => .ok (st.1 + 1, st.2)
  | .error m =>
    let errs := st.2 ++ [{ row := r.source_row, error := m }]
    if total < 2 * errs.length then .error "Too many errors encountered, stopping ETL process"
    else .ok (st.1, errs)

def cgProcessList (ins : CaregiverRec → Except String Unit) (total : Nat)
    (rs : List CaregiverRec) (st : CgState) : Except String CgState :=
  rs.foldlM (cgStep ins total) st

def cgProcessChunks (ins : CaregiverRec → Except String Unit) (total : Nat)
    (cs : List (List CaregiverRec)) (st : CgState) : Except String CgState :=
  cs.foldlM (fun s c => cgProcessList ins total c s) st

end CaregiverRepository

/-- Partition of a list into consecutive batches of `bs` elements
(`for (let i = 0; i < n; i += batchSize)` with `slice(i, i + batchSize)`),
driven by a structural fuel so that it computes by kernel reduction; the fuel
is always instantiated with the list length, which suffices whenever
`bs ≥ 1`. -/
def chunksFuel (bs : Nat) : Nat → List α → List (List α)
  | _, [] => []
  | 0, _ :: _ => []
  | fuel + 1, x :: xs => (x :: xs).take bs :: chunksFuel bs fuel ((x :: xs).drop bs)

/-- The batch partition of the load loops. -/
def chunks (bs : Nat) (l : List α) : List (List α) :=
  chunksFuel bs l.length l

theorem chunksFuel_flatten (bs : Nat) (hbs : bs ≠ 0) :
    ∀ (fuel : Nat) (l : List α), l.length ≤ fuel → (chunksFuel bs fuel l).flatten = l := by
  intro fuel
  induction fuel with
  | zero =>
    intro l h
    cases l with
    | nil => rfl
    | cons x xs => simp at h
  | succ fuel ih =>
    intro l h
    cases l with
    | nil => rfl
    | cons x xs =>
      show ((x :: xs).take bs :: chunksFuel bs fuel ((x :: xs).drop bs)).flatten = x :: xs
      rw [List.flatten_cons, ih ((x :: xs).drop bs)
        (by simp only [List.length_drop, List.length_cons] at *; omega)]
      exact List.take_append_drop bs (x :: xs)

theorem chunks_flatten (bs : Nat) (hbs : bs ≠ 0) (l : List α) : (chunks bs l).flatten = l :=
  chunksFuel_flatten bs hbs l.length l le_rfl

namespace CarelogsRepository

/-- One entry of `LoadResult.errors`. -/
structure LoadErr where
  rowIndex : Int
  error : String
  data : Option Carelog
  deriving DecidableEq

/-- `errorsByType` as an association list from category to count. -/
def bumpType (k : String) : List (String × Nat) → List (String × Nat)
  | [] => [(k, 1)]
  | (k2, n) :: rest => if k2 = k then (k2, n + 1) :: rest else (k2, n) :: bumpType k rest

theorem bumpType_sum (k : String) (l : List (String × Nat)) :
    ((bumpType k l).map Prod.snd).sum = (l.map Prod.snd).sum + 1 := by
  induction l with
  | nil => simp [bumpType]
  | cons p rest ih =>
    by_cases h : p.1 = k <;> simp [bumpType, h, ih] <;> omega

/-- `categorizeError`: fixed substring taxonomy. -/
def categorizeError (errorMessage : String) : String :=
  if containsSubstr errorMessage "does not exist" then "Foreign Key Error"
  else if containsSubstr errorMessage "already exists" then "Duplicate Error"
  else if containsSubstr errorMessage "Missing required" then "Validation Error"
  else if containsSubstr errorMessage "timeout" then "Timeout Error"
  else if containsSubstr errorMessage "Database insertion" then "Database Error"
  else "Unknown Error"

/-- `LoadResult` with its derived summary (`avgProcessingTime` is wall-clock
derived and modelled as `0`). -/
structure LoadSummary where
  insertionRate : ℚ
  errorRate : ℚ
  avgProcessingTime : ℚ
  errorsByType : List (String × Nat)
  deriving DecidableEq

structure LoadResult where
  totalProcessed : Nat
  successCount : Nat
  errorCount : Nat
  errors : List LoadErr
  summary : LoadSummary
  deriving DecidableEq

/-- Mutable state of the carelog load loop: successCount, errors, errorsByType. -/
abbrev ClState := Nat × List LoadErr × List (String × Nat)

/-- One record of the inner `for (const transform of batch)` loop: insert with
the oracle; a failure is recorded (`rowIndex`, message, record snapshot) and
categorized, never re-thrown.  An outcome without `data` cannot occur (the
load filters on `t.success && t.data`). -/
def clStep (ins : Carelog → Except String Unit) (st : ClState) (t : Transform) : ClState :=
  match t.data with
  | none => st
  | some c =>
    match ins c with
    | .ok _ => (st.1 + 1, st.2.1, st.2.2)
    | .error m =>
      (st.1, st.2.1 ++ [{ rowIndex := t.rowIndex, error := m, data := t.data }],
        bumpType (categorizeError m) st.2.2)

def clProcessList (ins : Carelog → Except String Unit) (ts : List Transform) (st : ClState) :
    ClState :=
  ts.foldl (clStep ins) st

/-- The batch loop: batches in order, records sequentially within each batch
(the pacing delay between batches has no observable effect here). -/
def clProcessChunks (ins : Carelog → Except String Unit) (cs : List (List Transform))
    (st : ClState) : ClState :=
  cs.foldl (fun s c => clProcessList ins c s) st

theorem clProcessChunksFuel_eq (ins : Carelog → Except String Unit) (bs : Nat)
    (hbs : bs ≠ 0) :
    ∀ (fuel : Nat) (ts : List Transform), ts.length ≤ fuel → ∀ st,
      clProcessChunks ins (chunksFuel bs fuel ts) st = clProcessList ins ts st := by
  intro fuel
  induction fuel with
  | zero =>
    intro ts h st
    cases ts with
    | nil => rfl
    | cons x xs => simp at h
  | succ fuel ih =>
    intro ts h st
    cases ts with
    | nil => rfl
    | cons x xs =>
      show clProcessChunks ins ((x :: xs).take bs :: chunksFuel bs fuel ((x :: xs).drop bs)) st
        = clProcessList ins (x :: xs) st
      rw [clProcessChunks, List.foldl_cons,
        show List.foldl (fun s c => clProcessList ins c s)
            (clProcessList ins ((x :: xs).take bs) st) (chunksFuel bs fuel ((x :: xs).drop bs))
          = clProcessChunks ins (chunksFuel bs fuel ((x :: xs).drop bs))
            (clProcessList ins ((x :: xs).take bs) st) from rfl,
        ih ((x :: xs).drop bs)
          (by simp only [List.length_drop, List.length_cons] at *; omega)]
      unfold clProcessList
      rw [← List.foldl_append, List.take_append_drop]

theorem clProcessChunks_eq (ins : Carelog → Except String Unit) (bs : Nat) (hbs : bs ≠ 0)
    (ts : List Transform) (st : ClState) :
    clProcessChunks ins (chunks bs ts) st = clProcessList ins ts st :=
  clProcessChunksFuel_eq ins bs hbs ts.length ts le_rfl st

/-- `loadCarelogData`: filter to successes, then (inside one transaction)
process batch by batch with per-record isolation, and assemble the
`LoadResult`.  With a non-positive `batchSize` and a non-empty success list the
source's `for` loop never terminates, modelled as `none`; there is no batch
size validation in this variant. -/
def loadCarelogData (ins : Carelog → Except String Unit) (transformedData : List Transform)
    (batchSize : Int) : Option LoadResult :=
  let validData := transformedData.filter (fun t => t.success && t.data.isSome)
  if validData.isEmpty then
    some (mkLoadResult 0 (0, [], []))
  else if batchSize ≤ 0 then none
  else
    some (mkLoadResult validData.length
      (clProcessChunks ins (chunks batchSize.toNat validData) (0, [], [])))
where
  /-- Result assembly (`totalProcessed = validData.length`; rates are `0` when
  nothing was processed). -/
  mkLoadResult (totalProcessed : Nat) (st : ClState) : LoadResult :=
    { totalProcessed := totalProcessed
      successCount := st.1
      errorCount := st.2.1.length
      errors := st.2.1
      summary :=
        { insertionRate :=
            if 0 < totalProcessed then (st.1 : ℚ) / (totalProcessed : ℚ) * 100 else 0
          errorRate :=
            if 0 < totalProcessed then (st.2.1.length : ℚ) / (totalProcessed : ℚ) * 100 else 0
          avgProcessingTime := 0
          errorsByType := st.2.2 } }

end CarelogsRepository

namespace CaregiverRepository

theorem cgProcessChunksFuel_eq (ins : CaregiverRec → Except String Unit) (total : Nat)
    (bs : Nat) (hbs : bs ≠ 0) :
    ∀ (fuel : Nat) (rs : List CaregiverRec), rs.length ≤ fuel → ∀ st,
      cgProcessChunks ins total (chunksFuel bs fuel rs) st = cgProcessList ins total rs st := by
  intro fuel
  induction fuel with
  | zero =>
    intro rs h st
    cases rs with
    | nil => rfl
    | cons x xs => simp at h
  | succ fuel ih =>
    intro rs h st
    cases rs with
    | nil => rfl
    | cons x xs =>
      show cgProcessChunks ins total
          ((x :: xs).take bs :: chunksFuel bs fuel ((x :: xs).drop bs)) st
        = cgProcessList ins total (x :: xs) st
      unfold cgProcessChunks
      rw [List.foldlM_cons,
        show cgProcessList ins total (x :: xs) st
            = cgProcessList ins total ((x :: xs).take bs) st >>=
              fun s => cgProcessList ins total ((x :: xs).drop bs) s from by
          unfold cgProcessList
          rw [← List.foldlM_append, List.take_append_drop]]
      cases cgProcessList ins total ((x :: xs).take bs) st with
      | error m => simp [Bind.bind, Except.bind]
      | ok st2 =>
        simp only [Bind.bind, Except.bind]
        exact ih ((x :: xs).drop bs)
          (by simp only [List.length_drop, List.length_cons] at *; omega) st2

theorem cgProcessChunks_eq (ins : CaregiverRec → Except String Unit) (total : Nat) (bs : Nat)
    (hbs : bs ≠ 0) (rs : List CaregiverRec) (st : CgState) :
    cgProcessChunks ins total (chunks bs rs) st = cgProcessList ins total rs st :=
  cgProcessChunksFuel_eq ins total bs hbs rs.length rs le_rfl st

/-- `loadCaregiverData`: empty input short-circuits to a zero result *before*
the batch-size validation; an out-of-range `batchSize` throws
`Batch size must be between 1 and 1000`, re-thrown by the outer catch as
`ETL load failed: …` before the transaction (and hence before any insert);
otherwise all batches run inside one transaction, and a `Too many errors`
abort is likewise re-thrown wrapped. -/
def loadCaregiverData (ins : CaregiverRec → Except String Unit)
    (transformedData : List CaregiverRec) (batchSize : Int) : Except String CgLoadResult :=
  if transformedData.isEmpty then
    .ok { totalProcessed := 0, successCount := 0, errorCount := 0, errors := [] }
  else if batchSize ≤ 0 ∨ 1000 < batchSize then
    .error "ETL load failed: Batch size must be between 1 and 1000"
  else
    match cgProcessChunks ins transformedData.length
        (chunks batchSize.toNat transformedData) (0, []) with
    | .ok st =>
      .ok { totalProcessed := transformedData.length
            successCount := st.1
            errorCount := st.2.length
            errors := st.2 }
    | .error m => .error s!"ETL load failed: {m}"

/-- Phase tag of a pipeline error entry. -/
inductive Phase where
  | extract
  | transform
  | load
  | pipeline
  deriving DecidableEq

/-- One entry of `pipelineErrors` (attempt counter and timestamp omitted). -/
structure PhaseErr where
  phase : Phase
  error : String
  deriving DecidableEq

/-- Options of the caregiver `runETLPipeline` with the source defaults. -/
structure CgOptions where
  batchSize : Int := 50
  validateOnly : Bool := false
  continueOnError : Bool := true
  maxRetries : Nat := 3
  deriving DecidableEq

/-- The caregiver pipeline result (`duration` omitted). -/
structure CgPipelineResult where
  success : Bool
  extractedCount : Nat
  transformedCount : Nat
  loadResult : Option CgLoadResult
  errors : List PhaseErr
  deriving DecidableEq

/-- State captured when an error propagates to the orchestrator's outer
`catch`: the thrown message plus the counters and error list at that moment. -/
structure CgAbort where
  msg : String
  extractedCount : Nat
  transformedCount : Nat
  loadResult : Option CgLoadResult
  errors : List PhaseErr
  deriving DecidableEq

/-- The extract retry loop (`while (retryCount <= maxRetries)`): each failed
attempt records an `extract`-tagged entry; once `retryCount > maxRetries` the
loop throws.  `ex n` is the outcome of attempt `n` (1-based), abstracting the
source-type `switch` and the extractor I/O; `left` is the number of retries
still allowed, structurally decreasing. -/
def cgExtractGo (ex : Nat → Except String (List RawCaregiver)) (maxRetries : Nat) :
    Nat → Nat → List PhaseErr →
      Except (String × List PhaseErr) (List RawCaregiver × List PhaseErr)
  | 0, attempt, errs =>
    match ex attempt with
    | .ok rawData => .ok (rawData, errs)
    | .error m =>
      .error (s!"Extract failed after {maxRetries} retries: {m}",
        errs ++ [{ phase := .extract, error := m }])
  | left + 1, attempt, errs =>
    match ex attempt with
    | .ok rawData => .ok (rawData, errs)
    | .error m =>
      cgExtractGo ex maxRetries left (attempt + 1) (errs ++ [{ phase := .extract, error := m }])

/-- The extract phase: first attempt is attempt 1, with `maxRetries` retries
allowed after it. -/
def cgExtractLoop (ex : Nat → Except String (List RawCaregiver)) (maxRetries : Nat) :
    Except (String × List PhaseErr) (List RawCaregiver × List PhaseErr) :=
  cgExtractGo ex maxRetries maxRetries 1 []

/-- The `success` computation of the normal completion path:
`pipelineErrors.filter(e => e.phase === 'extract' || e.phase === 'transform').length === 0`. -/
def cgSuccessFlag (errs : List PhaseErr) : Bool :=
  (errs.filter (fun e => e.phase == Phase.extract || e.phase == Phase.transform)).isEmpty

/-- The caregiver `runETLPipeline` body up to (but excluding) the outer
`catch`: extract with retries, transform, optional validate-only early return,
load, and the final result; a thrown error carries the state the catch block
reads. -/
def runCgBody (ex : Nat → Except String (List RawCaregiver)) (pd : String → Option Int)
    (ins : CaregiverRec → Except String Unit) (opts : CgOptions) :
    Except CgAbort CgPipelineResult :=
  match cgExtractLoop ex opts.maxRetries with
  | .error (m, errs) =>
    .error
      { msg := m, extractedCount := 0, transformedCount := 0, loadResult := none,
        errors := errs }
  | .ok (rawData, errs0) =>
    let extractedCount := rawData.length
    if extractedCount = 0 then
      .ok
        { success := true, extractedCount := 0, transformedCount := 0, loadResult := none,
          errors := errs0 }
    else
      match transformCaregiverData pd rawData with
      | .ok transformedData =>
        let transformedCount := transformedData.length
        if opts.validateOnly then
          .ok
            { success := true, extractedCount := extractedCount,
              transformedCount := transformedCount, loadResult := none, errors := errs0 }
        else if 0 < transformedCount then
          match loadCaregiverData ins transformedData opts.batchSize with
          | .ok lr =>
            .ok
              { success := cgSuccessFlag errs0, extractedCount := extractedCount,
                transformedCount := transformedCount, loadResult := some lr, errors := errs0 }
          | .error m =>
            let errs1 := errs0 ++ [{ phase := .load, error := m }]
            if ¬ opts.continueOnError then
              .error
                { msg := s!"Load phase failed: {m}", extractedCount := extractedCount,
                  transformedCount := transformedCount, loadResult := none, errors := errs1 }
            else
              .ok
                { success := cgSuccessFlag errs1, extractedCount := extractedCount,
                  transformedCount := transformedCount, loadResult := none, errors := errs1 }
        else
          .ok
            { success := cgSuccessFlag errs0, extractedCount := extractedCount,
              transformedCount := transformedCount, loadResult := none, errors := errs0 }
      | .error m =>
        let errs1 := errs0 ++ [{ phase := .transform, error := m }]
        if ¬ opts.continueOnError then
          .error
            { msg := s!"Transform phase failed: {m}", extractedCount := extractedCount,
              transformedCount := 0, loadResult := none, errors := errs1 }
        else if opts.validateOnly then
          .ok
            { success := true, extractedCount := extractedCount, transformedCount := 0,
              loadResult := none, errors := errs1 }
        else
          .ok
            { success := cgSuccessFlag errs1, extractedCount := extractedCount,
              transformedCount := 0, loadResult := none, errors := errs1 }

/-- The caregiver `runETLPipeline`: the outer `catch` converts any thrown
error into a returned result with `success := false` and a final
`pipeline`-tagged entry — nothing propagates to the caller. -/
def runETLPipeline (ex : Nat → Except String (List RawCaregiver)) (pd : String → Option Int)
    (ins : CaregiverRec → Except String Unit) (opts : CgOptions) : CgPipelineResult :=
  match runCgBody ex pd ins opts with
  | .ok r => r
  | .error a =>
    { success := false, extractedCount := a.extractedCount,
      transformedCount := a.transformedCount, loadResult := a.loadResult,
      errors := a.errors ++ [{ phase := .pipeline, error := a.msg }] }

end CaregiverRepository

namespace CarelogsRepository

/-- The carelog `ETLResult` (`duration` omitted). -/
structure ETLResult where
  success : Bool
  extractedCount : Nat
  transformedCount : Nat
  loadedCount : Nat
  errorCount : Nat
  errors : List String
  loadResults : Option LoadResult := none
  deriving DecidableEq

/-- The carelog extract loop: at most 3 attempts
(`while (extractAttempts < maxExtractAttempts)`); failed attempts are *not*
recorded in the error list, and the third failure throws.  `left` counts the
attempts still allowed after the current one. -/
def clExtractGo (ex : Nat → Except String (List RawCarelog)) :
    Nat → Nat → Except String (List RawCarelog)
  | 0, attempt =>
    match ex attempt with
    | .ok rawData => .ok rawData
    | .error m => .error s!"Extract failed after 3 attempts: {m}"
  | left + 1, attempt =>
    match ex attempt with
    | .ok rawData => .ok rawData
    | .error _ => clExtractGo ex left (attempt + 1)

/-- The carelog extract phase (3 attempts in total). -/
def clExtractLoop (ex : Nat → Except String (List RawCarelog)) :
    Except String (List RawCarelog) :=
  clExtractGo ex 2 1

/-- Failure-outcome error strings, tagged with their row
(`Row N: message`). -/
def clTransformErrStrings (transformResults : List Transform) : List String :=
  (transformResults.filter (fun r => !r.success)).map
    (fun t =>
      let ri := t.rowIndex
      let m := t.error.getD ""
      s!"Row {ri}: {m}")

/-- The carelog `runETLPipeline`: extract (≤ 3 attempts), transform, then load
unless `validateOnly`; the outer `catch` turns extraction exhaustion into a
returned failure result.  `none` models the divergence of
`loadCarelogData` on a non-positive batch size. -/
def runETLPipeline (ex : Nat → Except String (List RawCarelog)) (pd : String → Option Int)
    (ins : Carelog → Except String Unit) (batchSize : Int) (validateOnly : Bool) :
    Option ETLResult :=
  match clExtractLoop ex with
  | .error m =>
    some
      { success := false, extractedCount := 0, transformedCount := 0, loadedCount := 0,
        errorCount := 1, errors := [m], loadResults := none }
  | .ok rawData =>
    let transformResults := transformCarelogData pd rawData
    let transformedCount := (transformResults.filter (fun r => r.success)).length
    let errs := clTransformErrStrings transformResults
    if validateOnly then
      some
        { success := decide (errs = []) || transformResults.any (fun r => r.success),
          extractedCount := rawData.length, transformedCount := transformedCount,
          loadedCount := 0, errorCount := errs.length, errors := errs, loadResults := none }
    else
      match loadCarelogData ins transformResults batchSize with
      | none => none
      | some lr =>
        let errs2 := errs ++ lr.errors.map (fun e =>
          let ri := e.rowIndex
          let m := e.error
          s!"Load error row {ri}: {m}")
        some
          { success := decide (errs2 = []) || decide (0 < lr.successCount),
            extractedCount := rawData.length, transformedCount := transformedCount,
            loadedCount := lr.successCount, errorCount := errs2.length, errors := errs2,
            loadResults := some lr }

end CarelogsRepository

namespace CarelogsRepository

/-- A stored row of the `carelogs` table (representative columns; `updated_at`
is epoch milliseconds). -/
structure CarelogRow where
  id : Int
  caregiver_id : Int
  external_id : Option String
  start_datetime : Int
  end_datetime : Int
  status : String
  documentation : String
  general_comment_char_count : Int
  created_at : Int
  updated_at : Int
  deriving DecidableEq

/-- `findById`'s row lookup (`where('carelogs.id', id).first()`); the left
joins never filter rows out, so existence is just a lookup by id. -/
def findByIdRow (table : List CarelogRow) (id : Int) : Option CarelogRow :=
  (table.filter (fun r => r.id = id)).head?

/-- `delete(id)` — soft delete: invalid id throws, missing row throws (both
wrapped by the `catch` as `Failed to delete carelog: …`); otherwise every row
matching the id gets `status := 'deleted'` and a fresh `updated_at`, and the
call returns whether at least one row was updated. -/
def deleteCarelog (table : List CarelogRow) (id : Int) (now : Int) :
    Except String (Bool × List CarelogRow) :=
  if id = 0 ∨ id ≤ 0 then .error "Failed to delete carelog: Invalid ID provided"
  else
    match findByIdRow table id with
    | none => .error "Failed to delete carelog: Carelog not found"
    | some _ =>
      .ok (decide (0 < (table.filter (fun r => r.id = id)).length),
        table.map (fun r =>
          if r.id = id then { r with status := "deleted", updated_at := now } else r))

end CarelogsRepository

section Fixtures

/-- Date oracle that parses nothing (every date field invalid). -/
def pdNone : String → Option Int := fun _ => none

/-- Toy date oracle for concrete runs. -/
def pdToy : String → Option Int :=
  fun s => if s = "d1" then some 100 else if s = "d2" then some 200 else none

/-- Insert oracle for a database accepting every caregiver record. -/
def insOkCg : CaregiverRepository.CaregiverRec → Except String Unit := fun _ => .ok ()

/-- Insert oracle for a database accepting every carelog record. -/
def insOkCl : CarelogsRepository.Carelog → Except String Unit := fun _ => .ok ()

/-- Insert oracle for a database rejecting every carelog insert. -/
def insFailCl : CarelogsRepository.Carelog → Except String Unit :=
  fun _ => .error "Database insertion failed: boom"

/-- A raw caregiver row with the two required names and nothing else. -/
def rawCgGood : CaregiverRepository.RawCaregiver :=
  { first_name := some "Ann", last_name := some "Bee" }

/-- A raw caregiver row with every field absent. -/
def rawCgBlank : CaregiverRepository.RawCaregiver := {}

/-- A valid raw carelog row under `pdToy`. -/
def rawClGood : CarelogsRepository.RawCarelog :=
  { caregiver_id := some "7", start_datetime := some "d1", end_datetime := some "d2" }

/-- A raw carelog row with every field absent. -/
def rawClBlank : CarelogsRepository.RawCarelog := {}

/-- The transformed record `transformCaregiverData` produces from
`rawCgGood`. -/
def cgRecSample : CaregiverRepository.CaregiverRec :=
  { franchisor_id := none, agency_id := none, location_id := none, subdomain := none
    first_name := "Ann", last_name := "Bee", email := none, phone_number := none
    gender := none, birthday_date := none, onboarding_date := none
    certification_level := none, hourly_rate := none, applicant := false
    applicant_status := none, sstatus := "active", external_system_id := none
    system_name := "legacy_csv", status := "active", source_row := 1 }

/-- The transformed record `transformCarelogData` produces from `rawClGood`
under `pdToy`. -/
def clRecSample : CarelogsRepository.Carelog :=
  { franchisor_id := none, agency_id := none, external_id := none
    caregiver_id := some 7, parent_id := none
    start_datetime := some 100, end_datetime := some 200
    clock_in_actual_datetime := none, clock_out_actual_datetime := none
    clock_in_method := none, clock_out_method := none, status := "scheduled"
    split := false, documentation := "", general_comment_char_count := 0 }

/-- The success outcome wrapping `clRecSample`. -/
def clTSample : CarelogsRepository.Transform :=
  { success := true, data := some clRecSample, rowIndex := 1 }

/-- Extractor whose first attempt fails and whose retry succeeds. -/
def exRetryCg : Nat → Except String (List CaregiverRepository.RawCaregiver) :=
  fun a => if a = 1 then .error "glitch" else .ok [rawCgGood]

/-- Extractor that always succeeds with one good row. -/
def exOkCg : Nat → Except String (List CaregiverRepository.RawCaregiver) :=
  fun _ => .ok [rawCgGood]

/-- Extractor that always fails. -/
def exBoomCg : Nat → Except String (List CaregiverRepository.RawCaregiver) :=
  fun _ => .error "boom"

/-- Carelog extractor that always fails. -/
def exDownCl : Nat → Except String (List CarelogsRepository.RawCarelog) :=
  fun _ => .error "down"

/-- Carelog extractor that always succeeds with one invalid row. -/
def exBadRowCl : Nat → Except String (List CarelogsRepository.RawCarelog) :=
  fun _ => .ok [rawClBlank]

end Fixtures

namespace CaregiverRepository

theorem transformCaregiverData_go_isOk (pd : String → Option Int) (i : Nat)
    (l : List RawCaregiver) :
    (transformCaregiverData.go pd i l).isOk = l.all (fun r => !rowFatal r) := by
  induction l generalizing i with
  | nil => rfl
  | cons r rs ih =>
    simp only [transformCaregiverData.go, List.all_cons]
    cases h1 : transformOneCaregiver pd r i with
    | error m =>
      have hf := transformOneCaregiver_isOk pd r i
      rw [h1] at hf
      have hr : rowFatal r = true := by
        cases hx : rowFatal r
        · rw [hx] at hf; exact absurd hf (by simp [Except.isOk, Except.toBool])
        · rfl
      rw [hr]
      rfl
    | ok t =>
      have hf := transformOneCaregiver_isOk pd r i
      rw [h1] at hf
      have hr : rowFatal r = false := by
        cases hx : rowFatal r
        · rfl
        · rw [hx] at hf; exact absurd hf (by simp [Except.isOk, Except.toBool])
      rw [hr]
      show (transformCaregiverData.go pd (i + 1) rs >>= fun ts => pure (t :: ts)).isOk
        = rs.all (fun r => !rowFatal r)
      cases h2 : transformCaregiverData.go pd (i + 1) rs with
      | error m2 =>
        have ih2 := ih (i + 1)
        rw [h2] at ih2
        exact ih2
      | ok ts =>
        have ih2 := ih (i + 1)
        rw [h2] at ih2
        exact ih2

theorem transformCaregiverData_go_length (pd : String → Option Int) (i : Nat)
    (l : List RawCaregiver) (out : List CaregiverRec)
    (h : transformCaregiverData.go pd i l = .ok out) : out.length = l.length := by
  induction l generalizing i out with
  | nil =>
    simp only [transformCaregiverData.go] at h
    cases h
    rfl
  | cons r rs ih =>
    simp only [transformCaregiverData.go] at h
    cases h1 : (transformOneCaregiver pd r i).mapError
        (fun m => s!"Transformation failed at record {i + 1}: {m}") with
    | error m => rw [h1] at h; exact absurd h (by simp [Bind.bind, Except.bind])
    | ok t =>
      rw [h1] at h
      simp only [Bind.bind, Except.bind] at h
      cases h2 : transformCaregiverData.go pd (i + 1) rs with
      | error m2 => rw [h2] at h; exact absurd h (by simp)
      | ok ts =>
        rw [h2] at h
        simp only [pure, Except.pure, Except.ok.injEq] at h
        subst h
        simp [ih (i + 1) ts h2]

end CaregiverRepository

/-- C1 counterexample: the claim says the transform "returns a list of
outcomes of exactly the same length … and never throws, regardless of the
content of any row (including rows with missing required fields)".  But
`transformCaregiverData` applied to a single row with every field absent
throws (`Required string field is empty` from `cleanString(_, true)`), wrapped
by the per-record catch — no outcome list is produced at all. -/
theorem claim1_counterexample :
    CaregiverRepository.transformCaregiverData pdNone [rawCgBlank] =
      .error "Transformation failed at record 1: Required string field is empty" := rfl

/-- C1 (amended): `transformCarelogData` returns exactly one outcome per raw
row and never throws; `transformCaregiverData` instead throws as soon as some
row's required name fields are missing or blank (so it succeeds exactly when
no row is fatal), and when it does return it returns one transformed record
per input row. -/
theorem claim1_transform_outcome_per_row :
    (∀ (pd : String → Option Int) (raws : List CarelogsRepository.RawCarelog),
      (CarelogsRepository.transformCarelogData pd raws).length = raws.length) ∧
    (∀ (pd : String → Option Int) (raws : List CaregiverRepository.RawCaregiver),
      (CaregiverRepository.transformCaregiverData pd raws).isOk =
        raws.all (fun r => !CaregiverRepository.rowFatal r)) ∧
    (∀ (pd : String → Option Int) (raws : List CaregiverRepository.RawCaregiver)
      (out : List CaregiverRepository.CaregiverRec),
      CaregiverRepository.transformCaregiverData pd raws = .ok out →
        out.length = raws.length) :=
  ⟨fun pd raws => CarelogsRepository.transformCarelogData_length pd raws,
   fun pd raws => CaregiverRepository.transformCaregiverData_go_isOk pd 0 raws,
   fun pd raws out h => CaregiverRepository.transformCaregiverData_go_length pd 0 raws out h⟩

/-- The caregiver transform of the good sample row computes to the sample
record. -/
theorem rfl_trans_sample :
    CaregiverRepository.transformCaregiverData pdNone [rawCgGood] = .ok [cgRecSample] := rfl

/-- C1 witness: the amended statement evaluated on concrete batches — a
one-row carelog batch yields one outcome, and the caregiver transform of one
good row returns a one-element list. -/
theorem claim1_transform_outcome_per_row_witness :
    (CarelogsRepository.transformCarelogData pdNone [rawClBlank]).length = 1 ∧
    ([cgRecSample] : List CaregiverRepository.CaregiverRec).length = 1 :=
  ⟨claim1_transform_outcome_per_row.1 pdNone [rawClBlank],
   claim1_transform_outcome_per_row.2.2 pdNone [rawCgGood] [cgRecSample]
     (rfl_trans_sample)⟩

/-- C7 counterexample: the claim says gender normalization always "yields one
of {male, female, other, prefer_not_to_say}", but `normalizeGender` maps the
empty string (a value every CSV can contain) to `null`, which is outside that
set — the `if (!gender) return null` branch precedes the lookup table. -/
theorem claim7_counterexample :
    ¬ (CaregiverRepository.normalizeGender (some "") ∈
      [some "male", some "female", some "other", some "prefer_not_to_say"]) := by
  decide

/-- C7 (amended): for *truthy* (present, non-empty) input, gender
normalization yields one of the four values, with unrecognized values mapped
to `other`; absent or empty input yields `null` instead.  Caregiver `sstatus`
normalization always yields one of the five statuses with unrecognized (or
missing) values mapped to `active`, and carelog status normalization always
yields one of the six statuses with unrecognized (or missing) values mapped to
`scheduled`; no input is ever rejected. -/
theorem claim7_normalization_defaults :
    (∀ v : Option String, jsTruthy v = true →
      CaregiverRepository.normalizeGender v ∈
        [some "male", some "female", some "other", some "prefer_not_to_say"]) ∧
    (∀ v : Option String, jsTruthy v = true →
      (jsTrim (jsToLower (v.getD "")) ∉
          ["m", "male", "f", "female", "prefer_not_to_say"]) →
      CaregiverRepository.normalizeGender v = some "other") ∧
    (∀ v : Option String, jsTruthy v = false → CaregiverRepository.normalizeGender v = none) ∧
    (∀ v : Option String, CaregiverRepository.normalizeStatus v ∈
      ["active", "inactive", "pending", "suspended", "terminated"]) ∧
    (∀ v : Option String,
      (jsTrim (jsToLower (v.getD "")) ∉
          ["active", "inactive", "pending", "suspended", "terminated"]) →
      CaregiverRepository.normalizeStatus v = "active") ∧
    (∀ v : Option String, CarelogsRepository.normalizeCarelogStatus v ∈
      ["scheduled", "in_progress", "completed", "cancelled", "no_show", "deleted"]) ∧
    (∀ v : Option String,
      (jsTrim (jsToLower (v.getD "")) ∉
          ["scheduled", "in_progress", "completed", "cancelled", "no_show", "deleted"]) →
      CarelogsRepository.normalizeCarelogStatus v = "scheduled") := by
  refine ⟨fun v hv => ?_, fun v hv hm => ?_, fun v hv => ?_, fun v => ?_, fun v hm => ?_,
    fun v => ?_, fun v hm => ?_⟩
  · unfold CaregiverRepository.normalizeGender
    rw [if_neg (by simp [hv])]
    set n := jsTrim (jsToLower (v.getD "")) with hn
    by_cases h1 : n = "m" ∨ n = "male" <;> by_cases h2 : n = "f" ∨ n = "female" <;>
      by_cases h3 : n = "prefer_not_to_say" <;> by_cases h4 : n = "other" <;>
      simp [h1, h2, h3, h4]
  · unfold CaregiverRepository.normalizeGender
    rw [if_neg (by simp [hv])]
    simp only [List.mem_cons, List.mem_singleton, not_or] at hm
    obtain ⟨hm1, hm2, hm3, hm4, hm5⟩ := hm
    simp [hm1, hm2, hm3, hm4, hm5]
  · unfold CaregiverRepository.normalizeGender
    rw [if_pos (by simp [hv])]
  · unfold CaregiverRepository.normalizeStatus
    by_cases hv : jsTruthy v
    · rw [if_neg (by simp [hv])]
      set n := jsTrim (jsToLower (v.getD "")) with hn
      by_cases h1 : n = "active" ∨ n = "inactive" ∨ n = "pending" ∨ n = "suspended" ∨
          n = "terminated"
      · rcases h1 with h | h | h | h | h <;> simp [h]
      · simp [h1]
    · rw [if_pos (by simp [hv])]
      simp
  · unfold CaregiverRepository.normalizeStatus
    simp only [List.mem_cons, List.mem_singleton, not_or] at hm
    obtain ⟨hm1, hm2, hm3, hm4, hm5⟩ := hm
    by_cases hv : jsTruthy v
    · rw [if_neg (by simp [hv])]
      simp [hm1, hm2, hm3, hm4, hm5]
    · rw [if_pos (by simp [hv])]
  · unfold CarelogsRepository.normalizeCarelogStatus
    by_cases hv : jsTruthy v
    · rw [if_neg (by simp [hv])]
      set n := jsTrim (jsToLower (v.getD "")) with hn
      by_cases h1 : n = "scheduled" ∨ n = "in_progress" ∨ n = "completed" ∨ n = "cancelled" ∨
          n = "no_show" ∨ n = "deleted"
      · rcases h1 with h | h | h | h | h | h <;> simp [h]
      · simp [h1]
    · rw [if_pos (by simp [hv])]
      simp
  · unfold CarelogsRepository.normalizeCarelogStatus
    simp only [List.mem_cons, List.mem_singleton, not_or] at hm
    obtain ⟨hm1, hm2, hm3, hm4, hm5, hm6⟩ := hm
    by_cases hv : jsTruthy v
    · rw [if_neg (by simp [hv])]
      simp [hm1, hm2, hm3, hm4, hm5, hm6]
    · rw [if_pos (by simp [hv])]

/-- C7 witness: the amended statement applied to concrete inputs — `"F"` is a
recognized truthy gender, `"xyz"` is unrecognized and defaults to `other`,
`""` yields `null`, and an unrecognized status defaults (`active` /
`scheduled`). -/
theorem claim7_normalization_defaults_witness :
    CaregiverRepository.normalizeGender (some "F") ∈
        [some "male", some "female", some "other", some "prefer_not_to_say"] ∧
    CaregiverRepository.normalizeGender (some "xyz") = some "other" ∧
    CaregiverRepository.normalizeGender none = none ∧
    CaregiverRepository.normalizeStatus (some "weird") = "active" ∧
    CarelogsRepository.normalizeCarelogStatus (some "weird") = "scheduled" :=
  ⟨claim7_normalization_defaults.1 (some "F") (by decide),
   claim7_normalization_defaults.2.1 (some "xyz") (by decide) (by decide),
   claim7_normalization_defaults.2.2.1 none (by decide),
   claim7_normalization_defaults.2.2.2.2.1 (some "weird") (by decide),
   claim7_normalization_defaults.2.2.2.2.2.2 (some "weird") (by decide)⟩

/-- C8 (confirmed): `cleanEmail` maps `" Foo@Bar.COM "` to `"foo@bar.com"`
and `"not-an-email"` to `null`; and the success of a caregiver row's transform
does not depend on the email field at all (an invalid email alone never turns
the outcome into a failure — only the required name fields decide it). -/
theorem claim8_clean_email :
    CaregiverRepository.cleanEmail (some " Foo@Bar.COM ") = some "foo@bar.com" ∧
    CaregiverRepository.cleanEmail (some "not-an-email") = none ∧
    ∀ (pd : String → Option Int) (r : CaregiverRepository.RawCaregiver) (i : Nat)
      (e1 e2 : Option String),
      (CaregiverRepository.transformOneCaregiver pd { r with email := e1 } i).isOk =
        (CaregiverRepository.transformOneCaregiver pd { r with email := e2 } i).isOk := by
  refine ⟨rfl, rfl, fun pd r i e1 e2 => ?_⟩
  rw [CaregiverRepository.transformOneCaregiver_isOk,
    CaregiverRepository.transformOneCaregiver_isOk]
  rfl

namespace CaregiverRepository

theorem cgStep_error (ins : CaregiverRec → Except String Unit) (total : Nat) (st : CgState)
    (r : CaregiverRec) (m : String) (h : cgStep ins total st r = .error m) :
    m = "Too many errors encountered, stopping ETL process" := by
  unfold cgStep at h
  cases hi : ins r with
  | ok u => rw [hi] at h; exact absurd h (by simp)
  | error m2 =>
    rw [hi] at h
    simp only at h
    split at h
    · cases h; rfl
    · exact absurd h (by simp)

theorem cgProcessList_error (ins : CaregiverRec → Except String Unit) (total : Nat)
    (rs : List CaregiverRec) :
    ∀ (st : CgState) (m : String), cgProcessList ins total rs st = .error m →
      m = "Too many errors encountered, stopping ETL process" := by
  induction rs with
  | nil => intro st m h; exact absurd h (by simp [cgProcessList, pure, Except.pure])
  | cons r rs ih =>
    intro st m h
    rw [cgProcessList, List.foldlM_cons] at h
    cases hs : cgStep ins total st r with
    | error m2 =>
      rw [hs] at h
      simp only [Bind.bind, Except.bind, Except.error.injEq] at h
      subst h
      exact cgStep_error ins total st r m2 hs
    | ok st1 =>
      rw [hs] at h
      simp only [Bind.bind, Except.bind] at h
      exact ih st1 m h

theorem cgProcessList_bound (ins : CaregiverRec → Except String Unit) (total : Nat)
    (rs : List CaregiverRec) :
    ∀ (st st2 : CgState), cgProcessList ins total rs st = .ok st2 →
      2 * st.2.length ≤ total → 2 * st2.2.length ≤ total := by
  induction rs with
  | nil =>
    intro st st2 h hb
    simp only [cgProcessList, List.foldlM_nil, pure, Except.pure, Except.ok.injEq] at h
    subst h
    exact hb
  | cons r rs ih =>
    intro st st2 h hb
    rw [cgProcessList, List.foldlM_cons] at h
    cases hs : cgStep ins total st r with
    | error m =>
      rw [hs] at h
      exact absurd h (by simp [Bind.bind, Except.bind])
    | ok st1 =>
      rw [hs] at h
      simp only [Bind.bind, Except.bind] at h
      refine ih st1 st2 h ?_
      unfold cgStep at hs
      cases hi : ins r with
      | ok u =>
        rw [hi] at hs
        simp only [Except.ok.injEq] at hs
        subst hs
        exact hb
      | error m =>
        rw [hi] at hs
        simp only at hs
        split at hs
        · exact absurd hs (by simp)
        · simp only [Except.ok.injEq] at hs
          subst hs
          simp only
          omega

end CaregiverRepository

/-- C3 counterexample: the claim says *every* load call with a batch size
outside [1,1000] "fails fast with a configuration error before performing any
database I/O", but `loadCarelogData` has no batch-size validation at all:
with `batchSize = 2000` it happily inserts the record (the oracle is invoked,
`successCount = 1`) and returns a normal `LoadResult`. -/
theorem claim3_counterexample :
    (CarelogsRepository.loadCarelogData insOkCl [clTSample] 2000).map
      (fun r => (r.totalProcessed, r.successCount, r.errorCount)) = some (1, 1, 0) := rfl

/-- C3 (amended): only the caregiver load validates the batch size, and only
when the input is non-empty — (1) a non-empty caregiver load with a batch size
outside [1,1000] throws the configuration error before any insert; (2) an
*empty* caregiver load returns the zero result before the validation even for
an invalid batch size; (3) a caregiver load with a batch size in [1,1000]
either returns a result or aborts with the `Too many errors` condition — the
partition loop itself always terminates; (4) the carelog load never validates:
for every batch size ≥ 1 (including sizes above 1000) it terminates and visits
every success outcome (`totalProcessed` equals the filtered count). -/
theorem claim3_load_batchsize_validation :
    (∀ (ins : CaregiverRepository.CaregiverRec → Except String Unit)
      (data : List CaregiverRepository.CaregiverRec) (bs : Int),
      data ≠ [] → (bs ≤ 0 ∨ 1000 < bs) →
      CaregiverRepository.loadCaregiverData ins data bs =
        .error "ETL load failed: Batch size must be between 1 and 1000") ∧
    (∀ (ins : CaregiverRepository.CaregiverRec → Except String Unit) (bs : Int),
      CaregiverRepository.loadCaregiverData ins [] bs =
        .ok { totalProcessed := 0, successCount := 0, errorCount := 0, errors := [] }) ∧
    (∀ (ins : CaregiverRepository.CaregiverRec → Except String Unit)
      (data : List CaregiverRepository.CaregiverRec) (bs : Int), 0 < bs → bs ≤ 1000 →
      (∃ r, CaregiverRepository.loadCaregiverData ins data bs = .ok r) ∨
      CaregiverRepository.loadCaregiverData ins data bs =
        .error "ETL load failed: Too many errors encountered, stopping ETL process") ∧
    (∀ (ins : CarelogsRepository.Carelog → Except String Unit)
      (td : List CarelogsRepository.Transform) (bs : Int), 0 < bs →
      ∃ r, CarelogsRepository.loadCarelogData ins td bs = some r ∧
        r.totalProcessed = (td.filter (fun t => t.success && t.data.isSome)).length) := by
  refine ⟨fun ins data bs hne hbs => ?_, fun ins bs => ?_, fun ins data bs h1 h2 => ?_,
    fun ins td bs h1 => ?_⟩
  · unfold CaregiverRepository.loadCaregiverData
    rw [if_neg (by simp [hne]), if_pos (by omega)]
  · rfl
  · unfold CaregiverRepository.loadCaregiverData
    by_cases hne : data.isEmpty
    · rw [if_pos hne]
      exact Or.inl ⟨_, rfl⟩
    · rw [if_neg hne, if_neg (by omega)]
      cases hp : CaregiverRepository.cgProcessChunks ins data.length
          (chunks bs.toNat data) (0, []) with
      | ok st => exact Or.inl ⟨_, rfl⟩
      | error m =>
        right
        have hm := CaregiverRepository.cgProcessList_error ins data.length data (0, []) m
          (by rw [← CaregiverRepository.cgProcessChunks_eq ins data.length bs.toNat
            (by omega) data (0, [])]; exact hp)
        rw [hm]
        rfl
  · unfold CarelogsRepository.loadCarelogData
    by_cases hv : (td.filter (fun t => t.success && t.data.isSome)).isEmpty
    · rw [if_pos hv]
      refine ⟨_, rfl, ?_⟩
      simp only [CarelogsRepository.loadCarelogData.mkLoadResult]
      rw [List.isEmpty_iff] at hv
      rw [hv]
      rfl
    · rw [if_neg hv, if_neg (by omega)]
      exact ⟨_, rfl, rfl⟩

/-- C3 witness: the amended statement at concrete inputs — a one-record
caregiver load with batch size 0 throws the configuration error, and a
one-outcome carelog load with batch size 7 processes exactly one record. -/
theorem claim3_load_batchsize_validation_witness :
    CaregiverRepository.loadCaregiverData insOkCg [cgRecSample] 0 =
      .error "ETL load failed: Batch size must be between 1 and 1000" ∧
    ∃ r, CarelogsRepository.loadCarelogData insOkCl [clTSample] 7 = some r ∧
      r.totalProcessed =
        ([clTSample].filter (fun t => t.success && t.data.isSome)).length :=
  ⟨claim3_load_batchsize_validation.1 insOkCg [cgRecSample] 0 (by decide) (by omega),
   claim3_load_batchsize_validation.2.2.2 insOkCl [clTSample] 7 (by omega)⟩

namespace CarelogsRepository

/-- All-zero `LoadResult`, used as an `Option.getD` default below. -/
def clLoadDefault : LoadResult :=
  { totalProcessed := 0
    successCount := 0
    errorCount := 0
    errors := []
    summary :=
      { insertionRate := 0
        errorRate := 0
        avgProcessingTime := 0
        errorsByType := [] } }

/-- The result of loading one sample success outcome into a database that
rejects every insert. -/
def clFailRun : LoadResult :=
  (loadCarelogData insFailCl [clTSample] 50).getD clLoadDefault

/-- The result of loading one sample success outcome into a database that
accepts every insert. -/
def clOkRun : LoadResult :=
  (loadCarelogData insOkCl [clTSample] 3).getD clLoadDefault

theorem clProcessList_count (ins : Carelog → Except String Unit) (ts : List Transform) :
    ∀ st : ClState, (∀ t ∈ ts, t.data.isSome = true) →
      (clProcessList ins ts st).1 + (clProcessList ins ts st).2.1.length
          = st.1 + st.2.1.length + ts.length ∧
      ((clProcessList ins ts st).2.2.map Prod.snd).sum + st.2.1.length
          = (st.2.2.map Prod.snd).sum + (clProcessList ins ts st).2.1.length := by
  induction ts with
  | nil => intro st hwf; exact ⟨rfl, rfl⟩
  | cons t ts ih =>
    intro st hwf
    have ht : t.data.isSome = true := hwf t (List.mem_cons_self t ts)
    have hrec : clProcessList ins (t :: ts) st = clProcessList ins ts (clStep ins st t) := rfl
    rw [hrec]
    have ihs := ih (clStep ins st t) (fun x hx => hwf x (List.mem_cons_of_mem t hx))
    obtain ⟨c, hc⟩ := Option.isSome_iff_exists.mp ht
    cases hi : ins c with
    | ok u =>
      have hs1 : clStep ins st t = (st.1 + 1, st.2.1, st.2.2) := by
        simp [clStep, hc, hi]
      rw [hs1] at ihs
      obtain ⟨a, b⟩ := ihs
      rw [hs1]
      dsimp only at a b ⊢
      constructor
      · simp only [List.length_cons]
        omega
      · exact b
    | error m =>
      have hs1 : clStep ins st t =
          (st.1, st.2.1 ++ [{ rowIndex := t.rowIndex, error := m, data := t.data }],
            bumpType (categorizeError m) st.2.2) := by
        simp [clStep, hc, hi]
      rw [hs1] at ihs
      obtain ⟨a, b⟩ := ihs
      have hbump := bumpType_sum (categorizeError m) st.2.2
      rw [hs1]
      dsimp only at a b ⊢
      constructor
      · simp only [List.length_append, List.length_cons, List.length_nil] at a ⊢
        omega
      · simp only [List.length_append, List.length_cons, List.length_nil, hbump] at a b ⊢
        omega

/-- Elements of the load's filtered list all carry data. -/
theorem validData_isSome (td : List Transform) :
    ∀ t ∈ td.filter (fun t => t.success && t.data.isSome), t.data.isSome = true := by
  intro t ht
  have := List.of_mem_filter ht
  exact (Bool.and_eq_true _ _ |>.mp this).2

end CarelogsRepository

/-- C4 counterexample: the claim says the load "never continues processing a
subsequent record once the error rate over the records processed so far
exceeds 50%", but `loadCarelogData` has no circuit breaker at all: with two
success outcomes whose inserts both fail, the error rate is 100% after the
first record and the loader still processes the second
(`errorCount = 2`, result returned normally). -/
theorem claim4_counterexample :
    (CarelogsRepository.loadCarelogData insFailCl [clTSample, clTSample] 50).map
      (fun r => (r.totalProcessed, r.successCount, r.errorCount)) = some (2, 0, 2) := rfl

/-- C4 (amended): the carelog load has no circuit breaker — for every batch
size ≥ 1 it processes every filtered record to completion (each one either
succeeds or is recorded as an error, whatever the error rate).  The caregiver
load's breaker exists but compares the cumulative error count against 50% of
the *total input size*, not of the records processed so far: whenever the load
returns a result (rather than aborting), its error count is at most half the
input length. -/
theorem claim4_circuit_breaker :
    (∀ (ins : CaregiverRepository.CaregiverRec → Except String Unit)
      (data : List CaregiverRepository.CaregiverRec) (bs : Int)
      (r : CaregiverRepository.CgLoadResult),
      CaregiverRepository.loadCaregiverData ins data bs = .ok r →
        2 * r.errorCount ≤ data.length) ∧
    (∀ (ins : CarelogsRepository.Carelog → Except String Unit)
      (td : List CarelogsRepository.Transform) (bs : Int)
      (r : CarelogsRepository.LoadResult), 0 < bs →
      CarelogsRepository.loadCarelogData ins td bs = some r →
        r.successCount + r.errorCount = r.totalProcessed) := by
  constructor
  · intro ins data bs r h
    unfold CaregiverRepository.loadCaregiverData at h
    by_cases hne : data.isEmpty
    · rw [if_pos hne] at h
      simp only [Except.ok.injEq] at h
      subst h
      simp
    · rw [if_neg hne] at h
      by_cases hbs : bs ≤ 0 ∨ 1000 < bs
      · rw [if_pos hbs] at h
        exact absurd h (by simp)
      · rw [if_neg hbs] at h
        cases hp : CaregiverRepository.cgProcessChunks ins data.length
            (chunks bs.toNat data) (0, []) with
        | error m =>
          rw [hp] at h
          exact absurd h (by simp)
        | ok st =>
          rw [hp] at h
          simp only [Except.ok.injEq] at h
          subst h
          have hb := CaregiverRepository.cgProcessList_bound ins data.length data (0, []) st
            (by
              rw [← CaregiverRepository.cgProcessChunks_eq ins data.length bs.toNat
                (by omega) data (0, [])]
              exact hp)
            (by simp)
          simpa using hb
  · intro ins td bs r hbs h
    unfold CarelogsRepository.loadCarelogData at h
    by_cases hv : (td.filter (fun t => t.success && t.data.isSome)).isEmpty
    · rw [if_pos hv] at h
      simp only [Option.some.injEq] at h
      subst h
      rfl
    · rw [if_neg hv, if_neg (by omega)] at h
      simp only [Option.some.injEq] at h
      subst h
      have hc := CarelogsRepository.clProcessList_count ins
        (td.filter (fun t => t.success && t.data.isSome)) (0, [], [])
        (CarelogsRepository.validData_isSome td)
      rw [← CarelogsRepository.clProcessChunks_eq ins bs.toNat (by omega)] at hc
      simp only [CarelogsRepository.loadCarelogData.mkLoadResult]
      dsimp only at hc ⊢
      obtain ⟨hc1, hc2⟩ := hc
      simp only [List.length_nil] at hc1
      omega

/-- C4 witness: the amended statement at concrete loads — a clean one-record
caregiver load satisfies the breaker bound, and a one-record carelog load
whose insert fails still reports one processed record. -/
theorem claim4_circuit_breaker_witness :
    2 * ({ totalProcessed := 1, successCount := 1, errorCount := 0, errors := [] } :
        CaregiverRepository.CgLoadResult).errorCount ≤
      ([cgRecSample] : List CaregiverRepository.CaregiverRec).length ∧
    CarelogsRepository.clFailRun.successCount + CarelogsRepository.clFailRun.errorCount
      = CarelogsRepository.clFailRun.totalProcessed :=
  ⟨claim4_circuit_breaker.1 insOkCg [cgRecSample] 50
      { totalProcessed := 1, successCount := 1, errorCount := 0, errors := [] } rfl,
   claim4_circuit_breaker.2 insFailCl [clTSample] 50 CarelogsRepository.clFailRun
      (by omega) rfl⟩

/-- C9 (confirmed): every `LoadResult` that `loadCarelogData` returns (for any
insert behavior, any transform outcome list whose success outcomes carry data
— which all outcomes produced by `transformCarelogData` do — and any batch
size) satisfies the invariants: `totalProcessed` is the number of success
outcomes, `successCount + errorCount = totalProcessed`, the two rates are the
percentage formulas (both 0 when nothing was processed), and the
`errorsByType` counts sum to `errorCount`. -/
theorem claim9_load_result_invariants :
    ∀ (ins : CarelogsRepository.Carelog → Except String Unit)
      (td : List CarelogsRepository.Transform) (bs : Int)
      (r : CarelogsRepository.LoadResult),
      (∀ t ∈ td, t.success = true → t.data.isSome = true) →
      CarelogsRepository.loadCarelogData ins td bs = some r →
      (r.totalProcessed = td.countP (fun t => t.success)) ∧
      (r.successCount + r.errorCount = r.totalProcessed) ∧
      (r.totalProcessed = 0 → r.summary.insertionRate = 0 ∧ r.summary.errorRate = 0) ∧
      (0 < r.totalProcessed →
        r.summary.insertionRate = (r.successCount : ℚ) / (r.totalProcessed : ℚ) * 100 ∧
        r.summary.errorRate = (r.errorCount : ℚ) / (r.totalProcessed : ℚ) * 100) ∧
      ((r.summary.errorsByType.map Prod.snd).sum = r.errorCount) := by
  intro ins td bs r hwf h
  have hfe : td.filter (fun t => t.success && t.data.isSome)
      = td.filter (fun t => t.success) := by
    apply List.filter_congr
    intro x hx
    cases hs : x.success
    · simp
    · simp [hwf x hx hs]
  have hcnt : (td.filter (fun t => t.success && t.data.isSome)).length
      = td.countP (fun t => t.success) := by
    rw [hfe, List.countP_eq_length_filter]
  unfold CarelogsRepository.loadCarelogData at h
  by_cases hv : (td.filter (fun t => t.success && t.data.isSome)).isEmpty
  · rw [if_pos hv] at h
    simp only [Option.some.injEq] at h
    subst h
    rw [List.isEmpty_iff] at hv
    rw [hv] at hcnt
    refine ⟨by simpa using hcnt.symm ▸ rfl, rfl, fun _ => ⟨rfl, rfl⟩, fun h0 => ?_, rfl⟩
    · exact absurd h0 (by simp [CarelogsRepository.loadCarelogData.mkLoadResult])
  · have hlen : 0 < (td.filter (fun t => t.success && t.data.isSome)).length := by
      cases Nat.eq_zero_or_pos (td.filter (fun t => t.success && t.data.isSome)).length with
      | inl h0 =>
        exact absurd (by simp [List.isEmpty_iff, List.length_eq_zero.mp h0]) hv
      | inr hp => exact hp
    by_cases hbs : bs ≤ (0 : Int)
    · rw [if_neg hv, if_pos hbs] at h
      exact absurd h (by simp)
    · rw [if_neg hv, if_neg hbs] at h
      simp only [Option.some.injEq] at h
      subst h
      have hc := CarelogsRepository.clProcessList_count ins
        (td.filter (fun t => t.success && t.data.isSome)) (0, [], [])
        (CarelogsRepository.validData_isSome td)
      rw [← CarelogsRepository.clProcessChunks_eq ins bs.toNat (by omega)] at hc
      obtain ⟨hc1, hc2⟩ := hc
      dsimp only at hc1 hc2
      simp only [List.length_nil, List.map_nil, List.sum_nil] at hc1 hc2
      simp only [CarelogsRepository.loadCarelogData.mkLoadResult]
      refine ⟨hcnt, by omega, fun h0 => absurd h0 (by omega), fun h0 => ?_, by omega⟩
      constructor
      · rw [if_pos hlen]
      · rw [if_pos hlen]

/-- C9 witness: the invariants instantiated at a concrete load — one success
outcome into an accepting database with batch size 3. -/
theorem claim9_load_result_invariants_witness :
    (CarelogsRepository.clOkRun.totalProcessed =
      [clTSample].countP (fun t => t.success)) ∧
    (CarelogsRepository.clOkRun.successCount + CarelogsRepository.clOkRun.errorCount
      = CarelogsRepository.clOkRun.totalProcessed) ∧
    (CarelogsRepository.clOkRun.totalProcessed = 0 →
      CarelogsRepository.clOkRun.summary.insertionRate = 0 ∧
      CarelogsRepository.clOkRun.summary.errorRate = 0) ∧
    (0 < CarelogsRepository.clOkRun.totalProcessed →
      CarelogsRepository.clOkRun.summary.insertionRate =
        (CarelogsRepository.clOkRun.successCount : ℚ) /
          (CarelogsRepository.clOkRun.totalProcessed : ℚ) * 100 ∧
      CarelogsRepository.clOkRun.summary.errorRate =
        (CarelogsRepository.clOkRun.errorCount : ℚ) /
          (CarelogsRepository.clOkRun.totalProcessed : ℚ) * 100) ∧
    ((CarelogsRepository.clOkRun.summary.errorsByType.map Prod.snd).sum
      = CarelogsRepository.clOkRun.errorCount) :=
  claim9_load_result_invariants insOkCl [clTSample] 3 CarelogsRepository.clOkRun
    (by decide) rfl

namespace CarelogsRepository

theorem validateCarelogRecord_nil (c : Carelog) (h : validateCarelogRecord c = []) :
    (∃ s, c.start_datetime = some s) ∧ (∃ e, c.end_datetime = some e) ∧
    (∀ s e, c.start_datetime = some s → c.end_datetime = some e → s < e) ∧
    (∀ ci co, c.clock_in_actual_datetime = some ci →
      c.clock_out_actual_datetime = some co → ci < co) := by
  unfold validateCarelogRecord at h
  simp only [List.append_eq_nil] at h
  obtain ⟨⟨⟨⟨⟨h1, h2⟩, h3⟩, h4⟩, h5⟩, h6⟩ := h
  clear h1 h6
  cases hs : c.start_datetime with
  | none => rw [hs] at h2; simp at h2
  | some s =>
    cases he : c.end_datetime with
    | none => rw [he] at h3; simp at h3
    | some e =>
      rw [hs, he] at h4
      simp only at h4
      refine ⟨⟨s, rfl⟩, ⟨e, rfl⟩, fun s2 e2 hs2 he2 => ?_, fun ci co hci hco => ?_⟩
      · rw [Option.some.injEq] at hs2 he2
        subst hs2
        subst he2
        by_cases hord : s ≥ e
        · rw [if_pos hord] at h4
          exact absurd h4 (by simp)
        · omega
      · rw [hci, hco] at h5
        simp only at h5
        by_cases hord : ci ≥ co
        · rw [if_pos hord] at h5
          exact absurd h5 (by simp)
        · omega

theorem transformOneCarelog_success (pd : String → Option Int) (row : RawCarelog) (i : Nat)
    (h : (transformOneCarelog pd row i).success = true) :
    ∃ c s e, (transformOneCarelog pd row i).data = some c ∧
      c.start_datetime = some s ∧ c.end_datetime = some e ∧ s < e ∧
      (∀ ci co, c.clock_in_actual_datetime = some ci →
        c.clock_out_actual_datetime = some co → ci < co) := by
  unfold transformOneCarelog at h ⊢
  by_cases hreq : jsTruthy row.caregiver_id = true ∧ jsTruthy row.start_datetime = true ∧
      jsTruthy row.end_datetime = true
  · rw [if_neg (by simpa using hreq)] at h ⊢
    by_cases hval : (validateCarelogRecord (clRecordOf pd row)).isEmpty
    · rw [if_pos hval]
      rw [List.isEmpty_iff] at hval
      obtain ⟨⟨s, hsx⟩, ⟨e, hex⟩, hord, hclk⟩ :=
        validateCarelogRecord_nil (clRecordOf pd row) hval
      exact ⟨clRecordOf pd row, s, e, rfl, hsx, hex, hord s e hsx hex, hclk⟩
    · rw [if_neg hval] at h
      exact absurd h (by simp)
  · rw [if_pos (by simpa using hreq)] at h
    exact absurd h (by simp)

theorem transformCarelogData_go_mem (pd : String → Option Int) :
    ∀ (i : Nat) (l : List RawCarelog) (t : Transform),
      t ∈ transformCarelogData.go pd i l → ∃ row j, t = transformOneCarelog pd row j := by
  intro i l
  induction l generalizing i with
  | nil => intro t ht; simp [transformCarelogData.go] at ht
  | cons row rest ih =>
    intro t ht
    rw [transformCarelogData.go] at ht
    rcases List.mem_cons.mp ht with hh | hh
    · exact ⟨row, i, hh⟩
    · exact ih (i + 1) t hh

end CarelogsRepository

/-- C6 (confirmed): every Success outcome of `transformCarelogData` carries a
record whose `start_datetime` is strictly before its `end_datetime`, and whose
actual clock times, when both present, satisfy `clock_in < clock_out`; a row
violating either ordering fails validation and therefore cannot produce a
Success outcome. -/
theorem claim6_success_date_ordering (pd : String → Option Int)
    (raws : List CarelogsRepository.RawCarelog) (t : CarelogsRepository.Transform)
    (ht : t ∈ CarelogsRepository.transformCarelogData pd raws) (hs : t.success = true) :
    ∃ c s e, t.data = some c ∧
      c.start_datetime = some s ∧ c.end_datetime = some e ∧ s < e ∧
      (∀ ci co, c.clock_in_actual_datetime = some ci →
        c.clock_out_actual_datetime = some co → ci < co) := by
  obtain ⟨row, j, rfl⟩ := CarelogsRepository.transformCarelogData_go_mem pd 0 raws t ht
  exact CarelogsRepository.transformOneCarelog_success pd row j hs

/-- C6 witness: the ordering facts extracted from the concrete success outcome
of transforming `rawClGood` under `pdToy` (start 100, end 200). -/
theorem claim6_success_date_ordering_witness :
    ∃ c s e, clTSample.data = some c ∧
      c.start_datetime = some s ∧ c.end_datetime = some e ∧ s < e ∧
      (∀ ci co, c.clock_in_actual_datetime = some ci →
        c.clock_out_actual_datetime = some co → ci < co) :=
  claim6_success_date_ordering pdToy [rawClGood] clTSample (by decide) rfl

/-- C2 counterexample: the claim says a run whose extraction ultimately
succeeds after a retried failed attempt reports `success = true`.  With an
extractor that fails once (`"glitch"`) and then succeeds, a clean transform
and a clean load, the caregiver pipeline still reports `success = false`,
because the success flag counts *recorded* `extract`-tagged error entries and
every failed attempt records one. -/
theorem claim2_counterexample :
    (CaregiverRepository.runETLPipeline exRetryCg pdNone insOkCg {}).success = false := rfl

/-- C2 (amended): neither pipeline computes `success` as "no phase-fatal
error".  On the caregiver pipeline's normal completion path (some records
extracted, not validate-only), `success` is true iff *no* `extract`- or
`transform`-tagged entry was recorded — so failed-but-retried extract attempts
force `success = false` even though extraction ultimately succeeded, while
load errors (even a caught fatal one) never affect it.  The carelog pipeline
(not validate-only) reports `success = true` iff the error list is empty or at
least one record was actually loaded. -/
theorem claim2_success_flag :
    (∀ (ex : Nat → Except String (List CaregiverRepository.RawCaregiver))
      (pd : String → Option Int) (ins : CaregiverRepository.CaregiverRec → Except String Unit)
      (opts : CaregiverRepository.CgOptions) (r : CaregiverRepository.CgPipelineResult),
      CaregiverRepository.runCgBody ex pd ins opts = .ok r →
      opts.validateOnly = false → 0 < r.extractedCount →
      r.success = CaregiverRepository.cgSuccessFlag r.errors) ∧
    (∀ (ex : Nat → Except String (List CarelogsRepository.RawCarelog))
      (pd : String → Option Int) (ins : CarelogsRepository.Carelog → Except String Unit)
      (bs : Int) (r : CarelogsRepository.ETLResult),
      CarelogsRepository.runETLPipeline ex pd ins bs false = some r →
      r.success = (decide (r.errors = []) || decide (0 < r.loadedCount))) := by
  constructor
  · intro ex pd ins opts r h hvo hec
    unfold CaregiverRepository.runCgBody at h
    cases hx : CaregiverRepository.cgExtractLoop ex opts.maxRetries with
    | error p =>
      rw [hx] at h
      exact absurd h (by simp)
    | ok p =>
      obtain ⟨rawData, errs0⟩ := p
      rw [hx] at h
      dsimp only at h
      by_cases hz : rawData.length = 0
      · rw [if_pos hz] at h
        simp only [Except.ok.injEq] at h
        subst h
        simp at hec
      · rw [if_neg hz] at h
        cases htr : CaregiverRepository.transformCaregiverData pd rawData with
        | ok td =>
          rw [htr] at h
          dsimp only at h
          rw [if_neg (by simp [hvo])] at h
          by_cases htc : 0 < td.length
          · rw [if_pos htc] at h
            cases hl : CaregiverRepository.loadCaregiverData ins td opts.batchSize with
            | ok lr =>
              rw [hl] at h
              simp only [Except.ok.injEq] at h
              subst h
              rfl
            | error m =>
              rw [hl] at h
              dsimp only at h
              by_cases hco : opts.continueOnError = true
              · rw [if_neg (by simp [hco])] at h
                simp only [Except.ok.injEq] at h
                subst h
                rfl
              · rw [if_pos (by simp [hco])] at h
                exact absurd h (by simp)
          · rw [if_neg htc] at h
            simp only [Except.ok.injEq] at h
            subst h
            rfl
        | error m =>
          rw [htr] at h
          dsimp only at h
          by_cases hco : opts.continueOnError = true
          · rw [if_neg (by simp [hco]), if_neg (by simp [hvo])] at h
            simp only [Except.ok.injEq] at h
            subst h
            rfl
          · rw [if_pos (by simp [hco])] at h
            exact absurd h (by simp)
  · intro ex pd ins bs r h
    unfold CarelogsRepository.runETLPipeline at h
    cases hx : CarelogsRepository.clExtractLoop ex with
    | error m =>
      rw [hx] at h
      simp only [Option.some.injEq] at h
      subst h
      rfl
    | ok rawData =>
      rw [hx] at h
      dsimp only at h
      rw [if_neg (by simp)] at h
      cases hl : CarelogsRepository.loadCarelogData ins
          (CarelogsRepository.transformCarelogData pd rawData) bs with
      | none =>
        rw [hl] at h
        exact absurd h (by simp)
      | some lr =>
        rw [hl] at h
        simp only [Option.some.injEq] at h
        subst h
        rfl

/-- The pipeline result of a clean one-row caregiver run. -/
def cgCleanRun : CaregiverRepository.CgPipelineResult :=
  { success := true
    extractedCount := 1
    transformedCount := 1
    loadResult :=
      some { totalProcessed := 1, successCount := 1, errorCount := 0, errors := [] }
    errors := [] }

/-- The default carelog pipeline result used with `Option.getD` below. -/
def clRunDefault : CarelogsRepository.ETLResult :=
  { success := false
    extractedCount := 0
    transformedCount := 0
    loadedCount := 0
    errorCount := 0
    errors := [] }

/-- The carelog pipeline result for one invalid row where nothing loads. -/
def clBadRowRun : CarelogsRepository.ETLResult :=
  (CarelogsRepository.runETLPipeline exBadRowCl pdNone insOkCl 50 false).getD clRunDefault

/-- The clean one-row caregiver run's body computes to `cgCleanRun`. -/
theorem runCgBody_clean :
    CaregiverRepository.runCgBody exOkCg pdNone insOkCg {} = .ok cgCleanRun := rfl

/-- C2 witness: the amended flag characterizations at concrete runs — a clean
caregiver run (first-attempt extraction, one good row, clean load) whose body
result has no recorded errors, and a carelog run with one invalid row where
nothing loads. -/
theorem claim2_success_flag_witness :
    cgCleanRun.success = CaregiverRepository.cgSuccessFlag cgCleanRun.errors ∧
    clBadRowRun.success =
      (decide (clBadRowRun.errors = []) || decide (0 < clBadRowRun.loadedCount)) :=
  ⟨claim2_success_flag.1 exOkCg pdNone insOkCg {} cgCleanRun runCgBody_clean rfl (by decide),
   claim2_success_flag.2 exBadRowCl pdNone insOkCl 50 clBadRowRun rfl⟩

/-- C5 counterexample: the claim says extraction failing after all retries are
exhausted "is thrown to the caller instead of returned as a result".  With an
always-failing extractor and `maxRetries = 0`, the caregiver pipeline's outer
catch converts the exhaustion into a *returned* structured result
(`success = false`, the thrown message appended as a `pipeline`-tagged entry)
— nothing reaches the caller as an exception. -/
theorem claim5_counterexample :
    CaregiverRepository.runETLPipeline exBoomCg pdNone insOkCg { maxRetries := 0 } =
      { success := false, extractedCount := 0, transformedCount := 0, loadResult := none
        errors := [{ phase := .extract, error := "boom" },
          { phase := .pipeline, error := "Extract failed after 0 retries: boom" }] } := rfl

/-- C5 (amended): callers always receive a structured result from
`runETLPipeline`; *no* condition is thrown to the caller.  In the caregiver
pipeline every thrown error — including configuration errors and
extraction-retry exhaustion — is caught by the outer handler and turned into a
result with `success = false` whose error list ends with a `pipeline`-tagged
entry carrying the thrown message; in the carelog pipeline an exhausted
extraction is likewise returned as a `success = false` result holding the
thrown message. -/
theorem claim5_pipeline_never_throws :
    (∀ (ex : Nat → Except String (List CaregiverRepository.RawCaregiver))
      (pd : String → Option Int) (ins : CaregiverRepository.CaregiverRec → Except String Unit)
      (opts : CaregiverRepository.CgOptions) (a : CaregiverRepository.CgAbort),
      CaregiverRepository.runCgBody ex pd ins opts = .error a →
      CaregiverRepository.runETLPipeline ex pd ins opts =
        { success := false, extractedCount := a.extractedCount
          transformedCount := a.transformedCount, loadResult := a.loadResult
          errors := a.errors ++ [{ phase := .pipeline, error := a.msg }] }) ∧
    (∀ (ex : Nat → Except String (List CarelogsRepository.RawCarelog))
      (pd : String → Option Int) (ins : CarelogsRepository.Carelog → Except String Unit)
      (bs : Int) (vo : Bool) (m : String),
      CarelogsRepository.clExtractLoop ex = .error m →
      CarelogsRepository.runETLPipeline ex pd ins bs vo =
        some
          { success := false, extractedCount := 0, transformedCount := 0, loadedCount := 0
            errorCount := 1, errors := [m], loadResults := none }) := by
  constructor
  · intro ex pd ins opts a h
    unfold CaregiverRepository.runETLPipeline
    rw [h]
  · intro ex pd ins bs vo m h
    unfold CarelogsRepository.runETLPipeline
    rw [h]

/-- The body of a caregiver run whose extractor always fails, with one retry
allowed. -/
def cgDownAbort : CaregiverRepository.CgAbort :=
  { msg := "Extract failed after 1 retries: down"
    extractedCount := 0
    transformedCount := 0
    loadResult := none
    errors := [{ phase := .extract, error := "down" }, { phase := .extract, error := "down" }] }

/-- Caregiver extractor that always fails with `"down"`. -/
def exDownCg : Nat → Except String (List CaregiverRepository.RawCaregiver) :=
  fun _ => .error "down"

/-- The failing caregiver body computes to `cgDownAbort`. -/
theorem runCgBody_down :
    CaregiverRepository.runCgBody exDownCg pdNone insOkCg { maxRetries := 1 } =
      .error cgDownAbort := rfl

/-- The carelog extract loop of an always-failing extractor throws after its
third attempt. -/
theorem clExtractLoop_down :
    CarelogsRepository.clExtractLoop exDownCl = .error "Extract failed after 3 attempts: down" :=
  rfl

/-- C5 witness: the amended statement at concrete failing extractions — both
pipelines return structured `success = false` results carrying the would-be
exception as a message. -/
theorem claim5_pipeline_never_throws_witness :
    CaregiverRepository.runETLPipeline exDownCg pdNone insOkCg { maxRetries := 1 } =
      { success := false, extractedCount := cgDownAbort.extractedCount
        transformedCount := cgDownAbort.transformedCount, loadResult := cgDownAbort.loadResult
        errors := cgDownAbort.errors ++ [{ phase := .pipeline, error := cgDownAbort.msg }] } ∧
    CarelogsRepository.runETLPipeline exDownCl pdNone insOkCl 50 false =
      some
        { success := false, extractedCount := 0, transformedCount := 0, loadedCount := 0
          errorCount := 1, errors := ["Extract failed after 3 attempts: down"]
          loadResults := none } :=
  ⟨claim5_pipeline_never_throws.1 exDownCg pdNone insOkCg { maxRetries := 1 } cgDownAbort
      runCgBody_down,
   claim5_pipeline_never_throws.2 exDownCl pdNone insOkCl 50 false
      "Extract failed after 3 attempts: down" clExtractLoop_down⟩

/-- C10 (confirmed): the carelog delete is a soft delete.  For a positive id
present in the table, `delete` returns `true` and a table of the same length
in which the matching row has `status = 'deleted'` and the fresh `updated_at`
while every other column of it and every other row is exactly the original
one; for a non-positive id, or an id with no matching row, it throws and no
updated table is produced. -/
theorem claim10_soft_delete :
    (∀ (table : List CarelogsRepository.CarelogRow) (id now : Int),
      0 < id → (∃ row ∈ table, row.id = id) →
      ∃ t2, CarelogsRepository.deleteCarelog table id now = .ok (true, t2) ∧
        t2.length = table.length ∧
        ∀ (i : Nat) (r0 : CarelogsRepository.CarelogRow), table[i]? = some r0 →
          t2[i]? = some (if r0.id = id
            then { r0 with status := "deleted", updated_at := now } else r0)) ∧
    (∀ (table : List CarelogsRepository.CarelogRow) (id now : Int),
      (id ≤ 0 ∨ ∀ row ∈ table, row.id ≠ id) →
      ∃ m, CarelogsRepository.deleteCarelog table id now = .error m) := by
  constructor
  · intro table id now hid hex
    obtain ⟨row, hrow, hrid⟩ := hex
    have hmem : row ∈ table.filter (fun r => r.id = id) :=
      List.mem_filter.mpr ⟨hrow, by simp [hrid]⟩
    have hpos : 0 < (table.filter (fun r => r.id = id)).length :=
      List.length_pos.mpr (List.ne_nil_of_mem hmem)
    have hfind : ∃ r0, CarelogsRepository.findByIdRow table id = some r0 := by
      unfold CarelogsRepository.findByIdRow
      cases hf : table.filter (fun r => r.id = id) with
      | nil => rw [hf] at hpos; simp at hpos
      | cons a l => exact ⟨a, rfl⟩
    obtain ⟨r0, hr0⟩ := hfind
    refine ⟨table.map (fun r =>
      if r.id = id then { r with status := "deleted", updated_at := now } else r),
      ?_, by simp, ?_⟩
    · unfold CarelogsRepository.deleteCarelog
      rw [if_neg (by omega), hr0]
      have hdec : decide (0 < (table.filter (fun r => r.id = id)).length) = true := by
        simp [hpos]
      rw [hdec]
    · intro i r1 hi
      rw [List.getElem?_map, hi]
      rfl
  · intro table id now hcond
    by_cases hid : id ≤ 0
    · exact ⟨_, by unfold CarelogsRepository.deleteCarelog; rw [if_pos (by omega)]⟩
    · rcases hcond with hneg | hall
      · omega
      · refine ⟨"Failed to delete carelog: Carelog not found", ?_⟩
        unfold CarelogsRepository.deleteCarelog
        rw [if_neg (by omega)]
        have hf : CarelogsRepository.findByIdRow table id = none := by
          unfold CarelogsRepository.findByIdRow
          have : table.filter (fun r => r.id = id) = [] := by
            rw [List.filter_eq_nil_iff]
            intro a ha
            simp [hall a ha]
          rw [this]
          rfl
        rw [hf]

/-- A sample stored carelog row with id 5. -/
def rowSample : CarelogsRepository.CarelogRow :=
  { id := 5, caregiver_id := 7, external_id := none, start_datetime := 100
    end_datetime := 200, status := "scheduled", documentation := "", created_at := 0
    general_comment_char_count := 0, updated_at := 0 }

/-- C10 witness: the soft delete applied to a one-row table with id 5 (and the
throwing branch at id `-1`). -/
theorem claim10_soft_delete_witness :
    (∃ t2, CarelogsRepository.deleteCarelog [rowSample] 5 42 = .ok (true, t2) ∧
      t2.length = ([rowSample] : List CarelogsRepository.CarelogRow).length ∧
      ∀ (i : Nat) (r0 : CarelogsRepository.CarelogRow),
        ([rowSample] : List CarelogsRepository.CarelogRow)[i]? = some r0 →
        t2[i]? = some (if r0.id = 5
          then { r0 with status := "deleted", updated_at := 42 } else r0)) ∧
    (∃ m, CarelogsRepository.deleteCarelog [rowSample] (-1) 42 = .error m) :=
  ⟨claim10_soft_delete.1 [rowSample] 5 42 (by omega) ⟨rowSample, by simp, rfl⟩,
   claim10_soft_delete.2 [rowSample] (-1) 42 (Or.inl (by omega))⟩
